import Mathlib

/-!
Shallow embedding of the deterministic two-robot battle engine
(`apps/functions/src/battleEngine.ts`) and of the rule-script front end
(`apps/functions/src/parser.ts`).

Modelling conventions, used consistently below:

* JavaScript IEEE-754 doubles are modelled by `ℚ`.  The engine's explicit
  rounding `Number(x.toFixed(4))` (resp. `toFixed(2)`) is modelled exactly by
  `round4` (resp. `round2`): round to the nearest multiple of `1/10^k`, ties
  toward `+∞`, which is the `toFixed` tie rule ("pick the larger n").
  Over `ℚ` there is no overflow and no `NaN`, so the source's
  `Number.isFinite(v) ? v : null` guards are always in the finite branch;
  the source's explicit `EPSILON` division guard is kept verbatim.
* A robot's heading enters every function modelled here only through the
  unit vector `headingVector(headingRad) = (cos, sin)`; the state therefore
  stores that vector as the pair `(hx, hy)` instead of the angle.  The
  cardinal starting headings are `E = (1, 0)`, `W = (-1, 0)`, `S = (0, 1)`,
  `N = (0, -1)`.
* `Math.atan2` inside user expressions (the `ATAN2` script function) is kept
  as an explicit function parameter `atan2Deg` of the evaluator: every
  theorem below holds for an arbitrary interpretation of it.
* The code's `if (distance > VISION_RADIUS)` on `distance = sqrt(dx²+dy²)`
  and its cone test `atan2(|lateral|, max(1e-4, forward)) > π/3` are encoded
  in the (equivalent, proved below in `C2`) squared forms
  `dx²+dy² > 64` and `lateral² > 3·max(1e-4, forward)²`, keeping the
  embedding computable; the equivalence with the literal `Real.sqrt` /
  `Real.arctan` formulations is the content of theorem `C2_amended`.
* Display-only record fields that no claim mentions (robot names, the
  rounded `distance`/`distanceBand`/`bearing`/`headingDeg` fields of the
  enemy record, the cardinal `direction` of traces, the wall record of a
  perception, and the `prevEnemyHeading`/`prevEnemyDistance` memory cells)
  are omitted from the embedded records; none of them feeds back into any
  modelled computation.
-/

namespace McpArena

/-- round4 models `Number(x.toFixed(4))`: nearest multiple of 1/10000, ties up. -/
def round4 (q : ℚ) : ℚ := ((round (q * 10000) : ℤ) : ℚ) / 10000

/-- round2 models `Number(x.toFixed(2))`: nearest multiple of 1/100, ties up. -/
def round2 (q : ℚ) : ℚ := ((round (q * 100) : ℤ) : ℚ) / 100

/-- Grid4 q says q is exactly representable with 4 decimal places
(`q * 10000` is an integer).  Every energy and position value produced by
the engine satisfies it, since all increments preserve it. -/
def Grid4 (q : ℚ) : Prop := (q * 10000).den = 1

instance (q : ℚ) : Decidable (Grid4 q) := by unfold Grid4; infer_instance

theorem grid_num {q : ℚ} (h : Grid4 q) : ((q * 10000).num : ℚ) = q * 10000 := by
  conv_rhs => rw [← Rat.num_div_den (q * 10000)]
  rw [Grid4] at h
  rw [h]
  norm_num

theorem round4_eq_of_grid {q : ℚ} (h : Grid4 q) : round4 q = q := by
  unfold round4
  rw [← grid_num h, round_intCast, grid_num h]
  field_simp

theorem round4_le (q : ℚ) : round4 q ≤ q + 1/2/10000 := by
  unfold round4
  have h2 : ((round (q * 10000) : ℤ) : ℚ) ≤ q * 10000 + 1/2 :=
    round_le_add_half (q * 10000)
  linarith

theorem le_round4 (q : ℚ) : q - 1/2/10000 ≤ round4 q := by
  unfold round4
  have h2 : q * 10000 - 1/2 < ((round (q * 10000) : ℤ) : ℚ) :=
    sub_half_lt_round (q * 10000)
  linarith

theorem round4_nonneg {q : ℚ} (h : 0 ≤ q) : 0 ≤ round4 q := by
  unfold round4
  have h2 : (0 : ℤ) ≤ round (q * 10000) := by
    rw [round_eq]
    exact Int.le_floor.mpr (by push_cast; linarith)
  positivity

/-! ### Engine constants (battleEngine.ts lines 11-50) -/

def VISION_RADIUS : ℚ := 8
def SHOT_RANGE : ℚ := 5
def ROBOT_COLLISION_RADIUS : ℚ := 34/100
def SHOT_HIT_RADIUS : ℚ := 36/100
def FIRE_COOLDOWN_TICKS : ℕ := 1
def FIRE_ENERGY_COST : ℚ := 6
def PROJECTILE_TICKS_PER_TILE : ℚ := 2
def SIDE_BOOST_FORCE_SEQUENCE : List ℕ := [5, 4, 3, 2, 1]
def SIDE_BOOST_BURST_TICKS : ℕ := 5
def SIDE_BOOST_ENERGY_MAX : ℚ := 100
def SIDE_BOOST_ENERGY_COST : ℚ := 35
def SIDE_BOOST_ENERGY_REGEN_PER_SECOND : ℚ := 15
def SIDE_BOOST_COOLDOWN_TICKS : ℕ := 10
def EPSILON : ℚ := 1/1000000
def MEMORY_UNSEEN_TICKS_INITIAL : ℕ := 9999
def STRAFE_TICKS_PER_TILE : ℚ := 12

/-- TICK_DT is `TICK_DURATION_MS / 1000 = 1/60` seconds per tick. -/
def TICK_DT : ℚ := 1/60

/-- per-tick regeneration `SIDE_BOOST_ENERGY_REGEN_PER_SECOND * dt = 0.25`. -/
def REGEN_PER_TICK : ℚ := SIDE_BOOST_ENERGY_REGEN_PER_SECOND * TICK_DT

/-- maximum projectile step per tick
`PROJECTILE_SPEED_TILES_PER_SECOND * dt = 0.5` tiles. -/
def PROJECTILE_STEP : ℚ := (1 / (PROJECTILE_TICKS_PER_TILE * TICK_DT)) * TICK_DT

inductive BoostDirection where
  | LEFT
  | RIGHT
deriving DecidableEq, Repr

/-- EnemyMemory models `EnemyMemoryState` (battleEngine.ts lines 178-186);
the display-only `prevEnemyHeading`/`prevEnemyDistance` cells are omitted. -/
structure EnemyMemory where
  prevEnemyX : Option ℚ
  prevEnemyY : Option ℚ
  prevEnemyDx : Option ℚ
  prevEnemyDy : Option ℚ
  ticksSinceEnemySeen : ℕ
deriving DecidableEq, Repr

/-- RobotState models the mutable `RobotState` of the engine; `hx, hy` stand
for `headingVector(headingRad)` as explained in the header. -/
structure RobotState where
  id : String
  x : ℚ
  y : ℚ
  hx : ℚ
  hy : ℚ
  alive : Bool
  fireCooldownTicks : ℕ
  energy : ℚ
  boostCooldownTicks : ℕ
  boostBurstTicksRemaining : ℕ
  boostDirectionLocked : Option BoostDirection
  enemyMemory : EnemyMemory
deriving DecidableEq, Repr

/-- EnemyPerception models the claim-relevant fields of the enemy record
built by `buildPerception` (battleEngine.ts lines 631-645). -/
structure EnemyPerception where
  id : String
  dx : ℚ
  dy : ℚ
  absoluteX : ℚ
  absoluteY : ℚ
deriving DecidableEq, Repr

/-- Perception models the enemy half of `Perception`; the wall record is
independent of every claim and omitted. -/
structure Perception where
  enemyVisible : Bool
  enemy : Option EnemyPerception
deriving DecidableEq, Repr

/-- toLocalCoordinates (battleEngine.ts lines 427-435): decompose the offset
`(dx, dy)` in the basis (heading, right = heading rotated +90°). -/
def toLocalCoordinates (hx hy dx dy : ℚ) : ℚ × ℚ :=
  (dx * hx + dy * hy, dx * (-hy) + dy * hx)

/-- buildPerception (battleEngine.ts lines 591-647), enemy half.  The two
geometric cuts are the squared encodings of the source comparisons
`sqrt(dx²+dy²) > 8` and `atan2(|lateral|, max(0.0001, forward)) > π/3`
(equivalence proved in `C2_amended`). -/
def buildPerception (actor opponent : RobotState) : Perception :=
  let base : Perception := { enemyVisible := false, enemy := none }
  if ¬actor.alive then base
  else if ¬opponent.alive then base
  else
    let dx := opponent.x - actor.x
    let dy := opponent.y - actor.y
    if dx ^ 2 + dy ^ 2 > VISION_RADIUS ^ 2 then base
    else
      let fl := toLocalCoordinates actor.hx actor.hy dx dy
      if fl.1 ≤ 0 then base
      else if fl.2 ^ 2 > 3 * (max (1/10000) fl.1) ^ 2 then base
      else
        { enemyVisible := true
          enemy := some
            { id := opponent.id
              dx := round4 dx
              dy := round4 dy
              absoluteX := round4 opponent.x
              absoluteY := round4 opponent.y } }

/-- updateEnemyMemory (battleEngine.ts lines 759-776). -/
def updateEnemyMemory (mem : EnemyMemory) (opponent : RobotState)
    (perception : Perception) : EnemyMemory :=
  match perception.enemyVisible, perception.enemy with
  | true, some enemy =>
      { prevEnemyX := some (round4 opponent.x)
        prevEnemyY := some (round4 opponent.y)
        prevEnemyDx := some enemy.dx
        prevEnemyDy := some enemy.dy
        ticksSinceEnemySeen := 0 }
  | _, _ =>
      { mem with
          ticksSinceEnemySeen :=
            min MEMORY_UNSEEN_TICKS_INITIAL (mem.ticksSinceEnemySeen + 1) }

set_option maxHeartbeats 1600000 in
theorem buildPerception_isSome (actor opponent : RobotState) :
    (buildPerception actor opponent).enemy.isSome
      = (buildPerception actor opponent).enemyVisible := by
  unfold buildPerception
  dsimp only
  split <;> try rfl
  split <;> try rfl
  split <;> try rfl
  split <;> try rfl
  split <;> rfl

/-- initial enemy memory, from `buildRobotState` (battleEngine.ts 1492-1500). -/
def initialEnemyMemory : EnemyMemory :=
  { prevEnemyX := none
    prevEnemyY := none
    prevEnemyDx := none
    prevEnemyDy := none
    ticksSinceEnemySeen := MEMORY_UNSEEN_TICKS_INITIAL }

/-- robot A's start in the default 10x10 arena: (0,0) heading East. -/
def robotA0 : RobotState :=
  { id := "A", x := 0, y := 0, hx := 1, hy := 0, alive := true
    fireCooldownTicks := 0, energy := SIDE_BOOST_ENERGY_MAX
    boostCooldownTicks := 0, boostBurstTicksRemaining := 0
    boostDirectionLocked := none, enemyMemory := initialEnemyMemory }

/-- robot B's start in the default 10x10 arena: (9,9) heading West. -/
def robotB0 : RobotState :=
  { id := "B", x := 9, y := 9, hx := -1, hy := 0, alive := true
    fireCooldownTicks := 0, energy := SIDE_BOOST_ENERGY_MAX
    boostCooldownTicks := 0, boostBurstTicksRemaining := 0
    boostDirectionLocked := none, enemyMemory := initialEnemyMemory }

theorem buildPerception_start :
    buildPerception robotA0 robotB0 = { enemyVisible := false, enemy := none } := by
  simp only [buildPerception, robotA0, robotB0, toLocalCoordinates, VISION_RADIUS]
  norm_num

/-- the counter update of `updateEnemyMemory`, for any perception that keeps
`enemy.isSome` and `enemyVisible` in sync (as `buildPerception` does). -/
theorem updateEnemyMemory_ticks (mem : EnemyMemory) (o : RobotState)
    (p : Perception) (hco : p.enemy.isSome = p.enemyVisible) :
    ((updateEnemyMemory mem o p).ticksSinceEnemySeen = 0
      ↔ p.enemyVisible = true) ∧
    (p.enemyVisible = false →
      (updateEnemyMemory mem o p).ticksSinceEnemySeen
        = min MEMORY_UNSEEN_TICKS_INITIAL (mem.ticksSinceEnemySeen + 1)) := by
  rcases p with ⟨vis, enemy⟩
  cases vis <;> cases enemy <;>
    simp_all [updateEnemyMemory, MEMORY_UNSEEN_TICKS_INITIAL]

/-- C1 as stated is false: at the battle start the stored counter is the
sentinel 9999, the enemy is not visible (distance² = 162 > 64), and the
updated counter is `min 9999 (9999+1) = 9999`, not `9999 + 1`. -/
theorem C1_counterexample :
    (buildPerception robotA0 robotB0).enemyVisible = false ∧
    (updateEnemyMemory initialEnemyMemory robotB0
        (buildPerception robotA0 robotB0)).ticksSinceEnemySeen
      ≠ initialEnemyMemory.ticksSinceEnemySeen + 1 := by
  rw [buildPerception_start]
  refine ⟨rfl, ?_⟩
  simp [updateEnemyMemory, initialEnemyMemory, MEMORY_UNSEEN_TICKS_INITIAL]

/-- C1 amended: after `updateEnemyMemory` with the post-tick perception, the
stored counter is 0 iff the enemy was visible in that perception; when it was
not visible the counter is the prior value + 1 capped at the sentinel 9999
(`min 9999 (prior + 1)`). -/
theorem C1_amended (mem : EnemyMemory) (actor opponent : RobotState) :
    ((updateEnemyMemory mem opponent
        (buildPerception actor opponent)).ticksSinceEnemySeen = 0
      ↔ (buildPerception actor opponent).enemyVisible = true) ∧
    ((buildPerception actor opponent).enemyVisible = false →
      (updateEnemyMemory mem opponent
          (buildPerception actor opponent)).ticksSinceEnemySeen
        = min MEMORY_UNSEEN_TICKS_INITIAL (mem.ticksSinceEnemySeen + 1)) :=
  updateEnemyMemory_ticks mem opponent (buildPerception actor opponent)
    (buildPerception_isSome actor opponent)

theorem C1_amended_witness :
    (updateEnemyMemory initialEnemyMemory robotB0
        (buildPerception robotA0 robotB0)).ticksSinceEnemySeen
      = min MEMORY_UNSEEN_TICKS_INITIAL
          (initialEnemyMemory.ticksSinceEnemySeen + 1) :=
  (C1_amended initialEnemyMemory robotA0 robotB0).2
    (by rw [buildPerception_start])

/-! ### Side boost state machine (battleEngine.ts lines 1006-1130) -/

/-- tickSideBoostState (lines 1006-1014): saturating cooldown decrement and
energy regeneration, both skipped for a dead robot. -/
def tickSideBoostState (actor : RobotState) : RobotState :=
  if ¬actor.alive then actor
  else
    { actor with
        boostCooldownTicks := actor.boostCooldownTicks - 1
        energy := min SIDE_BOOST_ENERGY_MAX (round4 (actor.energy + REGEN_PER_TICK)) }

/-- BoostOutcome models the claim-relevant fields of the record returned by
`resolveSideBoost`; `delta` is split into components, the display-only
`distance` (a rounded hypot) and `trail` are omitted. -/
structure BoostOutcome where
  requested : Bool
  used : Bool
  direction : Option BoostDirection
  deltaX : ℚ
  deltaY : ℚ
  forceLevel : ℕ
  burstTicksRemaining : ℕ
  energyBefore : ℚ
  energyAfter : ℚ
  cooldownRemaining : ℕ
deriving DecidableEq, Repr

/-- IgnitionReady gathers the source's ignition preconditions
(battleEngine.ts lines 1054-1059). -/
def IgnitionReady (actor : RobotState) (requestedDirection : Option BoostDirection) : Prop :=
  actor.alive = true ∧ requestedDirection.isSome = true ∧
    actor.boostBurstTicksRemaining = 0 ∧ actor.boostCooldownTicks = 0 ∧
    SIDE_BOOST_ENERGY_COST ≤ actor.energy

instance (actor : RobotState) (req : Option BoostDirection) :
    Decidable (IgnitionReady actor req) := by unfold IgnitionReady; infer_instance

/-- resolveSideBoost (battleEngine.ts lines 1016-1130). -/
def resolveSideBoost (actor : RobotState) (requestedDirection : Option BoostDirection) :
    RobotState × BoostOutcome :=
  let requested := requestedDirection.isSome
  let energyBefore := round2 actor.energy
  if ¬actor.alive then
    (actor,
      { requested := requested, used := false, direction := requestedDirection
        deltaX := 0, deltaY := 0, forceLevel := 0
        burstTicksRemaining := actor.boostBurstTicksRemaining
        energyBefore := energyBefore, energyAfter := round2 actor.energy
        cooldownRemaining := actor.boostCooldownTicks })
  else
    let actor1 :=
      if requested = true ∧ actor.boostBurstTicksRemaining = 0 ∧
          actor.boostCooldownTicks = 0 ∧ SIDE_BOOST_ENERGY_COST ≤ actor.energy then
        { actor with
            energy := max 0 (round4 (actor.energy - SIDE_BOOST_ENERGY_COST))
            boostCooldownTicks := SIDE_BOOST_COOLDOWN_TICKS
            boostBurstTicksRemaining := SIDE_BOOST_BURST_TICKS
            boostDirectionLocked := requestedDirection }
      else actor
    let actor2 :=
      if 0 < actor1.boostBurstTicksRemaining ∧ actor1.boostDirectionLocked = none then
        { actor1 with boostBurstTicksRemaining := 0 }
      else actor1
    let activeDirection :=
      if 0 < actor2.boostBurstTicksRemaining then actor2.boostDirectionLocked else none
    match activeDirection with
    | none =>
        (actor2,
          { requested := requested, used := false, direction := requestedDirection
            deltaX := 0, deltaY := 0, forceLevel := 0
            burstTicksRemaining := actor2.boostBurstTicksRemaining
            energyBefore := energyBefore, energyAfter := round2 actor2.energy
            cooldownRemaining := actor2.boostCooldownTicks })
    | some dir =>
        let sequenceIndex := SIDE_BOOST_BURST_TICKS - actor2.boostBurstTicksRemaining
        let forceLevel :=
          SIDE_BOOST_FORCE_SEQUENCE.getD sequenceIndex actor2.boostBurstTicksRemaining
        let boostDistanceTiles := (forceLevel : ℚ) / STRAFE_TICKS_PER_TILE
        let rightX := -actor2.hy
        let rightY := actor2.hx
        let sideSign : ℚ := if dir = BoostDirection.RIGHT then 1 else -1
        let deltaX := round4 (rightX * sideSign * boostDistanceTiles)
        let deltaY := round4 (rightY * sideSign * boostDistanceTiles)
        let newRemaining := actor2.boostBurstTicksRemaining - 1
        let actor3 :=
          { actor2 with
              boostBurstTicksRemaining := newRemaining
              boostDirectionLocked :=
                if newRemaining = 0 then none else actor2.boostDirectionLocked }
        (actor3,
          { requested := requested, used := true, direction := some dir
            deltaX := deltaX, deltaY := deltaY, forceLevel := forceLevel
            burstTicksRemaining := newRemaining
            energyBefore := energyBefore, energyAfter := round2 actor3.energy
            cooldownRemaining := actor3.boostCooldownTicks })

/-! ### Firing (battleEngine.ts lines 1227-1322) -/

/-- FireOutcome models the per-shooter record of `resolveFiring`; the
`hit`/`projectile` fields filled later from the projectile advance are
represented by the returned optional spawned projectile. -/
structure FireOutcome where
  triggerHeld : Bool
  shotFired : Bool
  cooldownRemaining : ℕ
  blockedByEnergy : Bool
  energyBefore : ℚ
  energyAfter : ℚ
deriving DecidableEq, Repr

/-- InFlightProjectile (battleEngine.ts lines 234-242); the display-only
`directionCardinal` is omitted. -/
structure InFlightProjectile where
  shooterRobotId : String
  targetRobotId : String
  x : ℚ
  y : ℚ
  dirX : ℚ
  dirY : ℚ
  traveledDistance : ℚ
  maxRange : ℚ
deriving DecidableEq, Repr

/-- tickCooldown (lines 1227-1229): saturating fire-cooldown decrement. -/
def tickCooldown (actor : RobotState) : RobotState :=
  { actor with fireCooldownTicks := actor.fireCooldownTicks - 1 }

/-- fireTick is the single-shooter body of `resolveFiring`
(battleEngine.ts lines 1236-1322): the cooldown tick-down applied to the
alive shooter, then the spawn attempt.  The source ticks both robots before
running both attempts, but the two shooters share no state in this phase, so
the per-robot composition is the same function. -/
def fireTick (shooter : RobotState) (targetId : String) (fire : Bool) :
    RobotState × FireOutcome × Option InFlightProjectile :=
  let shooter := if shooter.alive then tickCooldown shooter else shooter
  let outcome0 : FireOutcome :=
    { triggerHeld := fire, shotFired := false
      cooldownRemaining := shooter.fireCooldownTicks, blockedByEnergy := false
      energyBefore := round2 shooter.energy, energyAfter := round2 shooter.energy }
  if ¬shooter.alive ∨ ¬fire then (shooter, outcome0, none)
  else if 0 < shooter.fireCooldownTicks then (shooter, outcome0, none)
  else if shooter.energy < FIRE_ENERGY_COST then
    (shooter, { outcome0 with blockedByEnergy := true }, none)
  else
    let shooter' :=
      { shooter with
          energy := max 0 (round4 (shooter.energy - FIRE_ENERGY_COST))
          fireCooldownTicks := FIRE_COOLDOWN_TICKS }
    (shooter',
      { outcome0 with
          shotFired := true
          cooldownRemaining := shooter'.fireCooldownTicks
          energyAfter := round2 shooter'.energy },
      some
        { shooterRobotId := shooter.id, targetRobotId := targetId
          x := round4 shooter.x, y := round4 shooter.y
          dirX := shooter.hx, dirY := shooter.hy
          traveledDistance := 0, maxRange := SHOT_RANGE })

theorem regen_val : REGEN_PER_TICK = 1/4 := by
  norm_num [REGEN_PER_TICK, SIDE_BOOST_ENERGY_REGEN_PER_SECOND, TICK_DT]

/-- housekeeping never lowers energy and keeps it in [0, 100]. -/
theorem tickSideBoostState_energy (r : RobotState)
    (h0 : 0 ≤ r.energy) (h1 : r.energy ≤ 100) :
    0 ≤ (tickSideBoostState r).energy ∧ (tickSideBoostState r).energy ≤ 100 ∧
      r.energy ≤ (tickSideBoostState r).energy := by
  unfold tickSideBoostState
  split
  · exact ⟨h0, h1, le_refl _⟩
  · dsimp only
    rw [regen_val]
    have hup := round4_le (r.energy + 1/4)
    have hlo := le_round4 (r.energy + 1/4)
    have hnn : 0 ≤ round4 (r.energy + 1/4) := round4_nonneg (by linarith)
    rw [show SIDE_BOOST_ENERGY_MAX = (100 : ℚ) from rfl]
    refine ⟨le_min (by norm_num) hnn, min_le_left _ _, ?_⟩
    rcases le_total (round4 (r.energy + 1/4)) 100 with hc | hc
    · rw [min_eq_right hc]; linarith
    · rw [min_eq_left hc]; linarith

/-- the updated robot of `resolveSideBoost` changes energy exactly on
ignition, where the source debits `SIDE_BOOST_ENERGY_COST` (with the usual
4-decimal rounding and a clamp at 0). -/
theorem resolveSideBoost_energy (r : RobotState) (req : Option BoostDirection) :
    (resolveSideBoost r req).1.energy =
      if IgnitionReady r req then
        max 0 (round4 (r.energy - SIDE_BOOST_ENERGY_COST))
      else r.energy := by
  rcases req with _ | d
  · rw [if_neg (show ¬IgnitionReady r none by rintro ⟨-, h, -⟩; simp at h)]
    unfold resolveSideBoost
    dsimp only
    simp only [Option.isSome_none, Bool.false_eq_true, false_and, if_false]
    split
    · rfl
    · split
      · split <;> rfl
      · split <;> rfl
  · by_cases halive : r.alive = true
    · by_cases hrest : r.boostBurstTicksRemaining = 0 ∧ r.boostCooldownTicks = 0 ∧
          SIDE_BOOST_ENERGY_COST ≤ r.energy
      · rw [if_pos (show IgnitionReady r (some d) from
          ⟨halive, by simp, hrest.1, hrest.2.1, hrest.2.2⟩)]
        unfold resolveSideBoost
        dsimp only
        rw [if_neg (show ¬¬r.alive = true by simp [halive])]
        rw [if_pos (show (some d : Option BoostDirection).isSome = true ∧
            r.boostBurstTicksRemaining = 0 ∧ r.boostCooldownTicks = 0 ∧
            SIDE_BOOST_ENERGY_COST ≤ r.energy from ⟨by simp, hrest.1, hrest.2.1, hrest.2.2⟩)]
        dsimp only
        rw [if_neg (show ¬(0 < SIDE_BOOST_BURST_TICKS ∧
            (some d : Option BoostDirection) = none) by simp)]
        rw [if_pos (show 0 < SIDE_BOOST_BURST_TICKS by norm_num [SIDE_BOOST_BURST_TICKS])]
      · rw [if_neg (show ¬IgnitionReady r (some d) by
          rintro ⟨-, -, h1, h2, h3⟩; exact hrest ⟨h1, h2, h3⟩)]
        unfold resolveSideBoost
        dsimp only
        rw [if_neg (show ¬¬r.alive = true by simp [halive])]
        rw [if_neg (show ¬((some d : Option BoostDirection).isSome = true ∧
            r.boostBurstTicksRemaining = 0 ∧ r.boostCooldownTicks = 0 ∧
            SIDE_BOOST_ENERGY_COST ≤ r.energy) by
          rintro ⟨-, h1, h2, h3⟩; exact hrest ⟨h1, h2, h3⟩)]
        split
        · split <;> rfl
        · split <;> rfl
    · rw [if_neg (show ¬IgnitionReady r (some d) from fun hc => halive hc.1)]
      unfold resolveSideBoost
      dsimp only
      rw [if_pos (show ¬r.alive = true from halive)]

theorem Grid4_iff (q : ℚ) : Grid4 q ↔ ∃ n : ℤ, q = (n : ℚ) / 10000 := by
  constructor
  · intro h
    refine ⟨(q * 10000).num, ?_⟩
    rw [grid_num h]
    field_simp
  · rintro ⟨n, rfl⟩
    unfold Grid4
    have h : (n : ℚ) / 10000 * 10000 = (n : ℚ) := by field_simp
    rw [h]
    exact Rat.den_intCast n

theorem Grid4_sub {a b : ℚ} (ha : Grid4 a) (hb : Grid4 b) : Grid4 (a - b) := by
  rw [Grid4_iff] at *
  obtain ⟨m, rfl⟩ := ha
  obtain ⟨n, rfl⟩ := hb
  exact ⟨m - n, by push_cast; ring⟩

/-- an exactly-representable debit with `c ≤ e` comes out exactly: the
`toFixed(4)` rounding and the `Math.max(0, ·)` clamp are both identities. -/
theorem debit_exact {e c : ℚ} (hc : Grid4 c) (he : Grid4 e) (h : c ≤ e) :
    max 0 (round4 (e - c)) = e - c := by
  rw [round4_eq_of_grid (Grid4_sub he hc)]
  exact max_eq_right (by linarith)

theorem grid_six : Grid4 (6 : ℚ) := (Grid4_iff 6).mpr ⟨60000, by norm_num⟩

theorem grid_thirtyfive : Grid4 (35 : ℚ) := (Grid4_iff 35).mpr ⟨350000, by norm_num⟩

/-! ### fireTick case analysis -/

theorem fireTick_dead (r : RobotState) (tid : String) (fire : Bool)
    (h : r.alive = false) :
    fireTick r tid fire =
      (r,
       { triggerHeld := fire, shotFired := false
         cooldownRemaining := r.fireCooldownTicks, blockedByEnergy := false
         energyBefore := round2 r.energy, energyAfter := round2 r.energy },
       none) := by
  unfold fireTick
  dsimp only
  rw [if_neg (show ¬r.alive = true by simp [h])]
  rw [if_pos (show ¬r.alive = true ∨ ¬fire = true from Or.inl (by simp [h]))]

theorem fireTick_noTrigger (r : RobotState) (tid : String)
    (halive : r.alive = true) :
    fireTick r tid false =
      (tickCooldown r,
       { triggerHeld := false, shotFired := false
         cooldownRemaining := r.fireCooldownTicks - 1, blockedByEnergy := false
         energyBefore := round2 r.energy, energyAfter := round2 r.energy },
       none) := by
  unfold fireTick
  dsimp only
  rw [if_pos (show r.alive = true from halive)]
  rw [if_pos (show ¬(tickCooldown r).alive = true ∨ ¬false = true from
    Or.inr (by simp))]
  simp [tickCooldown]

theorem fireTick_cooldownBlocked (r : RobotState) (tid : String)
    (halive : r.alive = true) (hcd : 0 < r.fireCooldownTicks - 1) :
    fireTick r tid true =
      (tickCooldown r,
       { triggerHeld := true, shotFired := false
         cooldownRemaining := r.fireCooldownTicks - 1, blockedByEnergy := false
         energyBefore := round2 r.energy, energyAfter := round2 r.energy },
       none) := by
  unfold fireTick
  dsimp only
  rw [if_pos (show r.alive = true from halive)]
  rw [if_neg (show ¬(¬(tickCooldown r).alive = true ∨ ¬true = true) by
    simp [tickCooldown, halive])]
  rw [if_pos (show 0 < (tickCooldown r).fireCooldownTicks from hcd)]
  simp [tickCooldown]

theorem fireTick_noEnergy (r : RobotState) (tid : String)
    (halive : r.alive = true) (hcd : r.fireCooldownTicks - 1 = 0)
    (he : r.energy < FIRE_ENERGY_COST) :
    fireTick r tid true =
      (tickCooldown r,
       { triggerHeld := true, shotFired := false
         cooldownRemaining := r.fireCooldownTicks - 1, blockedByEnergy := true
         energyBefore := round2 r.energy, energyAfter := round2 r.energy },
       none) := by
  unfold fireTick
  dsimp only
  rw [if_pos (show r.alive = true from halive)]
  rw [if_neg (show ¬(¬(tickCooldown r).alive = true ∨ ¬true = true) by
    simp [tickCooldown, halive])]
  rw [if_neg (show ¬0 < (tickCooldown r).fireCooldownTicks by
    simp only [tickCooldown]; omega)]
  rw [if_pos (show (tickCooldown r).energy < FIRE_ENERGY_COST from he)]
  simp [tickCooldown]

theorem fireTick_shoot (r : RobotState) (tid : String)
    (halive : r.alive = true) (hcd : r.fireCooldownTicks - 1 = 0)
    (he : FIRE_ENERGY_COST ≤ r.energy) :
    fireTick r tid true =
      ({ tickCooldown r with
           energy := max 0 (round4 (r.energy - FIRE_ENERGY_COST))
           fireCooldownTicks := FIRE_COOLDOWN_TICKS },
       { triggerHeld := true, shotFired := true
         cooldownRemaining := FIRE_COOLDOWN_TICKS, blockedByEnergy := false
         energyBefore := round2 r.energy
         energyAfter := round2 (max 0 (round4 (r.energy - FIRE_ENERGY_COST))) },
       some
         { shooterRobotId := r.id, targetRobotId := tid
           x := round4 r.x, y := round4 r.y, dirX := r.hx, dirY := r.hy
           traveledDistance := 0, maxRange := SHOT_RANGE }) := by
  unfold fireTick
  dsimp only
  rw [if_pos (show r.alive = true from halive)]
  rw [if_neg (show ¬(¬(tickCooldown r).alive = true ∨ ¬true = true) by
    simp [tickCooldown, halive])]
  rw [if_neg (show ¬0 < (tickCooldown r).fireCooldownTicks by
    simp only [tickCooldown]; omega)]
  rw [if_neg (show ¬(tickCooldown r).energy < FIRE_ENERGY_COST from not_lt.mpr he)]
  simp [tickCooldown]

/-- FiresNow collects the conditions under which the spawn attempt of
`resolveFiring` succeeds for one shooter: alive, trigger held, post-decrement
cooldown zero, and enough energy. -/
def FiresNow (r : RobotState) (fire : Bool) : Prop :=
  r.alive = true ∧ fire = true ∧ r.fireCooldownTicks - 1 = 0 ∧
    FIRE_ENERGY_COST ≤ r.energy

instance (r : RobotState) (fire : Bool) : Decidable (FiresNow r fire) := by
  unfold FiresNow; infer_instance

theorem fireTick_cases (r : RobotState) (tid : String) (fire : Bool) :
    ((fireTick r tid fire).2.1.shotFired = true ↔ FiresNow r fire) ∧
    (fireTick r tid fire).1.energy =
      (if FiresNow r fire then max 0 (round4 (r.energy - FIRE_ENERGY_COST))
       else r.energy) := by
  by_cases ha : r.alive = true
  · cases fire
    · rw [fireTick_noTrigger r tid ha]
      constructor
      · simp [FiresNow]
      · rw [if_neg (show ¬FiresNow r false by rintro ⟨-, h, -⟩; simp at h)]
        simp [tickCooldown]
    · by_cases hcd : r.fireCooldownTicks - 1 = 0
      · by_cases he : FIRE_ENERGY_COST ≤ r.energy
        · have hf : FiresNow r true := ⟨ha, rfl, hcd, he⟩
          rw [fireTick_shoot r tid ha hcd he]
          exact ⟨by simp [hf], by rw [if_pos hf]⟩
        · rw [fireTick_noEnergy r tid ha hcd (not_le.mp he)]
          constructor
          · simp only [iff_def]
            exact ⟨fun h => by simp at h, fun hc => absurd hc.2.2.2 he⟩
          · rw [if_neg (fun hc => he hc.2.2.2)]
            simp [tickCooldown]
      · rw [fireTick_cooldownBlocked r tid ha (Nat.pos_of_ne_zero hcd)]
        constructor
        · simp only [iff_def]
          exact ⟨fun h => by simp at h, fun hc => absurd hc.2.2.1 hcd⟩
        · rw [if_neg (fun hc => hcd hc.2.2.1)]
          simp [tickCooldown]
  · rw [fireTick_dead r tid fire (by simpa using ha)]
    constructor
    · simp only [iff_def]
      exact ⟨fun h => by simp at h, fun hc => absurd hc.1 ha⟩
    · rw [if_neg (fun hc => ha hc.1)]

/-- C3: the only three operations of the engine that write `energy`
(housekeeping regen, side-boost resolution, fire resolution; every battle
tick is a composition of them) keep energy inside [0, 100], and energy
strictly decreases exactly on a successful boost ignition
(`IgnitionReady`, debit 35) or a successful shot (`shotFired`, debit 6);
every other event leaves it equal or larger. -/
theorem C3_energy_model :
    (∀ r : RobotState, 0 ≤ r.energy → r.energy ≤ 100 →
        0 ≤ (tickSideBoostState r).energy ∧ (tickSideBoostState r).energy ≤ 100 ∧
          r.energy ≤ (tickSideBoostState r).energy) ∧
    (∀ (r : RobotState) (req : Option BoostDirection),
        0 ≤ r.energy → r.energy ≤ 100 →
        0 ≤ (resolveSideBoost r req).1.energy ∧
          (resolveSideBoost r req).1.energy ≤ 100 ∧
          ((resolveSideBoost r req).1.energy < r.energy ↔ IgnitionReady r req)) ∧
    (∀ (r : RobotState) (tid : String) (fire : Bool),
        0 ≤ r.energy → r.energy ≤ 100 →
        0 ≤ (fireTick r tid fire).1.energy ∧
          (fireTick r tid fire).1.energy ≤ 100 ∧
          ((fireTick r tid fire).1.energy < r.energy ↔
            (fireTick r tid fire).2.1.shotFired = true)) := by
  refine ⟨tickSideBoostState_energy, ?_, ?_⟩
  · intro r req h0 h1
    rw [resolveSideBoost_energy]
    by_cases hig : IgnitionReady r req
    · rw [if_pos hig]
      have h35 : (35 : ℚ) ≤ r.energy := hig.2.2.2.2
      have hup := round4_le (r.energy - SIDE_BOOST_ENERGY_COST)
      have hnn : 0 ≤ round4 (r.energy - SIDE_BOOST_ENERGY_COST) :=
        round4_nonneg (by rw [show SIDE_BOOST_ENERGY_COST = (35:ℚ) from rfl]; linarith)
      rw [show SIDE_BOOST_ENERGY_COST = (35:ℚ) from rfl] at hup ⊢
      refine ⟨le_max_left 0 _, max_le (by norm_num) (by linarith), ?_⟩
      rw [iff_true_intro hig, iff_true]
      exact max_lt (by linarith) (by linarith)
    · rw [if_neg hig]
      exact ⟨h0, h1, by simp [hig]⟩
  · intro r tid fire h0 h1
    obtain ⟨hshot, hen⟩ := fireTick_cases r tid fire
    rw [hen, hshot]
    by_cases hf : FiresNow r fire
    · rw [if_pos hf]
      have h6 : (6 : ℚ) ≤ r.energy := hf.2.2.2
      have hup := round4_le (r.energy - FIRE_ENERGY_COST)
      have hnn : 0 ≤ round4 (r.energy - FIRE_ENERGY_COST) :=
        round4_nonneg (by rw [show FIRE_ENERGY_COST = (6:ℚ) from rfl]; linarith)
      rw [show FIRE_ENERGY_COST = (6:ℚ) from rfl] at hup ⊢
      refine ⟨le_max_left 0 _, max_le (by norm_num) (by linarith), ?_⟩
      rw [iff_true_intro hf, iff_true]
      exact max_lt (by linarith) (by linarith)
    · rw [if_neg hf]
      exact ⟨h0, h1, by simp [hf]⟩

theorem C3_witness :
    (0 ≤ (tickSideBoostState robotA0).energy ∧
      (tickSideBoostState robotA0).energy ≤ 100 ∧
      robotA0.energy ≤ (tickSideBoostState robotA0).energy) ∧
    (0 ≤ (resolveSideBoost robotA0 (some BoostDirection.RIGHT)).1.energy ∧
      (resolveSideBoost robotA0 (some BoostDirection.RIGHT)).1.energy ≤ 100 ∧
      ((resolveSideBoost robotA0 (some BoostDirection.RIGHT)).1.energy < robotA0.energy
        ↔ IgnitionReady robotA0 (some BoostDirection.RIGHT))) :=
  ⟨C3_energy_model.1 robotA0 (by norm_num [robotA0, SIDE_BOOST_ENERGY_MAX])
      (by norm_num [robotA0, SIDE_BOOST_ENERGY_MAX]),
   C3_energy_model.2.1 robotA0 (some BoostDirection.RIGHT)
      (by norm_num [robotA0, SIDE_BOOST_ENERGY_MAX])
      (by norm_num [robotA0, SIDE_BOOST_ENERGY_MAX])⟩

/-- C5: the spawn gate of `resolveFiring` for one shooter.  A dead robot or
an unheld trigger spawns nothing; a positive post-decrement cooldown blocks
the shot; energy below 6 blocks the shot, marks `blockedByEnergy` and leaves
energy unchanged; otherwise exactly 6 energy is debited, the cooldown is set
to `FIRE_COOLDOWN_TICKS = 1`, and one projectile spawns at the shooter's
position with direction = heading and max range `SHOT_RANGE = 5`. -/
theorem C5_fire_gate (r : RobotState) (tid : String) :
    (∀ fire, ¬(r.alive = true ∧ fire = true) →
        (fireTick r tid fire).2.1.shotFired = false ∧
          (fireTick r tid fire).2.2 = none) ∧
    (r.alive = true → 0 < r.fireCooldownTicks - 1 →
        (fireTick r tid true).2.1.shotFired = false ∧
          (fireTick r tid true).2.2 = none ∧
          (fireTick r tid true).1.energy = r.energy) ∧
    (r.alive = true → r.fireCooldownTicks - 1 = 0 → r.energy < FIRE_ENERGY_COST →
        (fireTick r tid true).2.1.shotFired = false ∧
          (fireTick r tid true).2.1.blockedByEnergy = true ∧
          (fireTick r tid true).2.2 = none ∧
          (fireTick r tid true).1.energy = r.energy ∧
          (fireTick r tid true).2.1.energyAfter
            = (fireTick r tid true).2.1.energyBefore) ∧
    (r.alive = true → r.fireCooldownTicks - 1 = 0 → FIRE_ENERGY_COST ≤ r.energy →
      Grid4 r.energy →
        (fireTick r tid true).2.1.shotFired = true ∧
          (fireTick r tid true).1.energy = r.energy - FIRE_ENERGY_COST ∧
          (fireTick r tid true).1.fireCooldownTicks = FIRE_COOLDOWN_TICKS ∧
          (fireTick r tid true).2.2 =
            some { shooterRobotId := r.id, targetRobotId := tid
                   x := round4 r.x, y := round4 r.y, dirX := r.hx, dirY := r.hy
                   traveledDistance := 0, maxRange := SHOT_RANGE }) := by
  refine ⟨?_, ?_, ?_, ?_⟩
  · intro fire hnot
    by_cases ha : r.alive = true
    · have hfire : fire = false := by
        cases fire
        · rfl
        · exact absurd ⟨ha, rfl⟩ hnot
      subst hfire
      rw [fireTick_noTrigger r tid ha]
      exact ⟨rfl, rfl⟩
    · rw [fireTick_dead r tid fire (by simpa using ha)]
      exact ⟨rfl, rfl⟩
  · intro ha hcd
    rw [fireTick_cooldownBlocked r tid ha hcd]
    exact ⟨rfl, rfl, by simp [tickCooldown]⟩
  · intro ha hcd he
    rw [fireTick_noEnergy r tid ha hcd he]
    exact ⟨rfl, rfl, rfl, by simp [tickCooldown], rfl⟩
  · intro ha hcd he hg
    rw [fireTick_shoot r tid ha hcd he]
    refine ⟨rfl, ?_, rfl, rfl⟩
    show max 0 (round4 (r.energy - FIRE_ENERGY_COST)) = r.energy - FIRE_ENERGY_COST
    exact debit_exact grid_six hg he

theorem C5_fire_gate_witness :
    (fireTick robotA0 "B" true).2.1.shotFired = true ∧
      (fireTick robotA0 "B" true).1.energy = robotA0.energy - FIRE_ENERGY_COST ∧
      (fireTick robotA0 "B" true).1.fireCooldownTicks = FIRE_COOLDOWN_TICKS ∧
      (fireTick robotA0 "B" true).2.2 =
        some { shooterRobotId := robotA0.id, targetRobotId := "B"
               x := round4 robotA0.x, y := round4 robotA0.y
               dirX := robotA0.hx, dirY := robotA0.hy
               traveledDistance := 0, maxRange := SHOT_RANGE } :=
  (C5_fire_gate robotA0 "B").2.2.2 rfl rfl
    (by norm_num [robotA0, SIDE_BOOST_ENERGY_MAX, FIRE_ENERGY_COST])
    (by rw [show robotA0.energy = (100:ℚ) from rfl]
        exact (Grid4_iff 100).mpr ⟨1000000, by norm_num⟩)

/-- C10: the fire cooldown starts at 0, is only ever written back as
`FIRE_COOLDOWN_TICKS = 1`, and is saturatingly decremented for the alive
shooter before the spawn check, so under the invariant `cooldown ≤ 1` the
post-decrement cooldown of an alive robot is 0 and the cooldown-blocked
branch is unreachable: an alive robot holding the trigger with energy ≥ 6
always fires. -/
theorem C10_no_cooldown_block :
    (robotA0.fireCooldownTicks ≤ 1 ∧ robotB0.fireCooldownTicks ≤ 1) ∧
    (∀ (r : RobotState) (tid : String) (fire : Bool), r.fireCooldownTicks ≤ 1 →
        (fireTick r tid fire).1.fireCooldownTicks ≤ 1) ∧
    (∀ r : RobotState, r.fireCooldownTicks ≤ 1 →
        (tickCooldown r).fireCooldownTicks = 0) ∧
    (∀ (r : RobotState) (tid : String), r.alive = true → r.fireCooldownTicks ≤ 1 →
        FIRE_ENERGY_COST ≤ r.energy →
        (fireTick r tid true).2.1.shotFired = true) := by
  refine ⟨⟨by norm_num [robotA0], by norm_num [robotB0]⟩, ?_, ?_, ?_⟩
  · intro r tid fire hinv
    by_cases ha : r.alive = true
    · cases fire
      · rw [fireTick_noTrigger r tid ha]
        simp only [tickCooldown]
        omega
      · by_cases hcd : r.fireCooldownTicks - 1 = 0
        · by_cases he : FIRE_ENERGY_COST ≤ r.energy
          · rw [fireTick_shoot r tid ha hcd he]
            norm_num [FIRE_COOLDOWN_TICKS]
          · rw [fireTick_noEnergy r tid ha hcd (not_le.mp he)]
            simp only [tickCooldown]
            omega
        · rw [fireTick_cooldownBlocked r tid ha (Nat.pos_of_ne_zero hcd)]
          simp only [tickCooldown]
          omega
    · rw [fireTick_dead r tid fire (by simpa using ha)]
      exact hinv
  · intro r hinv
    simp only [tickCooldown]
    omega
  · intro r tid ha hinv he
    rw [fireTick_shoot r tid ha (by omega) he]

theorem C10_witness :
    (fireTick robotA0 "B" true).2.1.shotFired = true :=
  C10_no_cooldown_block.2.2.2 robotA0 "B" rfl (by norm_num [robotA0])
    (by norm_num [robotA0, SIDE_BOOST_ENERGY_MAX, FIRE_ENERGY_COST])

/-! ### C4: side-boost ignition and the five-tick burst -/

/-- full result of an ignition call of `resolveSideBoost`: debit, cooldown,
burst counter (5 set, one force level consumed in the same call), lock, and
the tick's lateral delta at force level 5. -/
theorem resolveSideBoost_ignite (r : RobotState) (d : BoostDirection)
    (halive : r.alive = true) (hburst : r.boostBurstTicksRemaining = 0)
    (hcd : r.boostCooldownTicks = 0) (he : SIDE_BOOST_ENERGY_COST ≤ r.energy) :
    resolveSideBoost r (some d) =
      ({ r with
           energy := max 0 (round4 (r.energy - SIDE_BOOST_ENERGY_COST))
           boostCooldownTicks := SIDE_BOOST_COOLDOWN_TICKS
           boostBurstTicksRemaining := 4
           boostDirectionLocked := some d },
       { requested := true, used := true, direction := some d
         deltaX := round4 (-r.hy * (if d = BoostDirection.RIGHT then 1 else -1)
           * (5 / STRAFE_TICKS_PER_TILE))
         deltaY := round4 (r.hx * (if d = BoostDirection.RIGHT then 1 else -1)
           * (5 / STRAFE_TICKS_PER_TILE))
         forceLevel := 5, burstTicksRemaining := 4
         energyBefore := round2 r.energy
         energyAfter := round2 (max 0 (round4 (r.energy - SIDE_BOOST_ENERGY_COST)))
         cooldownRemaining := SIDE_BOOST_COOLDOWN_TICKS }) := by
  unfold resolveSideBoost
  dsimp only
  rw [if_neg (show ¬¬r.alive = true by simp [halive])]
  rw [if_pos (show (some d : Option BoostDirection).isSome = true ∧
      r.boostBurstTicksRemaining = 0 ∧ r.boostCooldownTicks = 0 ∧
      SIDE_BOOST_ENERGY_COST ≤ r.energy from ⟨by simp, hburst, hcd, he⟩)]
  dsimp only
  rw [if_neg (show ¬(0 < SIDE_BOOST_BURST_TICKS ∧
      (some d : Option BoostDirection) = none) by simp)]
  rw [if_pos (show 0 < SIDE_BOOST_BURST_TICKS by norm_num [SIDE_BOOST_BURST_TICKS])]
  norm_num [SIDE_BOOST_BURST_TICKS, SIDE_BOOST_FORCE_SEQUENCE]

/-- full result of a burst-continuation call of `resolveSideBoost` (burst in
progress with a locked direction): consume the next force level, decrement
the burst counter, clear the lock when it reaches zero. -/
theorem resolveSideBoost_continue (r : RobotState) (d : BoostDirection)
    (req : Option BoostDirection)
    (halive : r.alive = true) (hburst : 0 < r.boostBurstTicksRemaining)
    (hlock : r.boostDirectionLocked = some d) :
    resolveSideBoost r req =
      ({ r with
           boostBurstTicksRemaining := r.boostBurstTicksRemaining - 1
           boostDirectionLocked :=
             if r.boostBurstTicksRemaining - 1 = 0 then none else some d },
       { requested := req.isSome, used := true, direction := some d
         deltaX := round4 (-r.hy * (if d = BoostDirection.RIGHT then 1 else -1)
           * ((SIDE_BOOST_FORCE_SEQUENCE.getD
                (SIDE_BOOST_BURST_TICKS - r.boostBurstTicksRemaining)
                r.boostBurstTicksRemaining : ℕ) / STRAFE_TICKS_PER_TILE))
         deltaY := round4 (r.hx * (if d = BoostDirection.RIGHT then 1 else -1)
           * ((SIDE_BOOST_FORCE_SEQUENCE.getD
                (SIDE_BOOST_BURST_TICKS - r.boostBurstTicksRemaining)
                r.boostBurstTicksRemaining : ℕ) / STRAFE_TICKS_PER_TILE))
         forceLevel := SIDE_BOOST_FORCE_SEQUENCE.getD
           (SIDE_BOOST_BURST_TICKS - r.boostBurstTicksRemaining)
           r.boostBurstTicksRemaining
         burstTicksRemaining := r.boostBurstTicksRemaining - 1
         energyBefore := round2 r.energy, energyAfter := round2 r.energy
         cooldownRemaining := r.boostCooldownTicks }) := by
  unfold resolveSideBoost
  dsimp only
  rw [if_neg (show ¬¬r.alive = true by simp [halive])]
  rw [if_neg (show ¬(req.isSome = true ∧ r.boostBurstTicksRemaining = 0 ∧
      r.boostCooldownTicks = 0 ∧ SIDE_BOOST_ENERGY_COST ≤ r.energy) by
    rintro ⟨-, h, -⟩; omega)]
  rw [if_neg (show ¬(0 < r.boostBurstTicksRemaining ∧
      r.boostDirectionLocked = none) by
    rintro ⟨-, h⟩; rw [hlock] at h; exact Option.some_ne_none d h)]
  rw [if_pos hburst, hlock]

/-- boostTick: per-tick composition of the two engine calls that drive the
side-boost machine (`tickSideBoostState` at the top of the tick,
`resolveSideBoost` inside `applyMovement`).  The rotation phase between them
leaves the heading unchanged when `turn = 0` (the scenario's controls) and no
other phase touches the boost fields. -/
def boostTick (r : RobotState) (req : Option BoostDirection) :
    RobotState × BoostOutcome :=
  resolveSideBoost (tickSideBoostState r) req

def burst1 : RobotState × BoostOutcome := boostTick robotA0 (some BoostDirection.RIGHT)
def burst2 : RobotState × BoostOutcome := boostTick burst1.1 (some BoostDirection.RIGHT)
def burst3 : RobotState × BoostOutcome := boostTick burst2.1 (some BoostDirection.RIGHT)
def burst4 : RobotState × BoostOutcome := boostTick burst3.1 (some BoostDirection.RIGHT)
def burst5 : RobotState × BoostOutcome := boostTick burst4.1 (some BoostDirection.RIGHT)

theorem burst1_eval :
    burst1 =
      ({ robotA0 with
           energy := 65
           boostCooldownTicks := 10
           boostBurstTicksRemaining := 4
           boostDirectionLocked := some BoostDirection.RIGHT },
       { requested := true, used := true, direction := some BoostDirection.RIGHT
         deltaX := 0, deltaY := 4167/10000, forceLevel := 5, burstTicksRemaining := 4
         energyBefore := 100, energyAfter := 65, cooldownRemaining := 10 }) := by
  have h0 : tickSideBoostState robotA0 = robotA0 := by
    norm_num [tickSideBoostState, robotA0, REGEN_PER_TICK,
      SIDE_BOOST_ENERGY_REGEN_PER_SECOND, TICK_DT, SIDE_BOOST_ENERGY_MAX,
      round4, round_eq, initialEnemyMemory]
  rw [burst1, boostTick, h0,
    resolveSideBoost_ignite robotA0 BoostDirection.RIGHT rfl rfl rfl
      (by norm_num [robotA0, SIDE_BOOST_ENERGY_MAX, SIDE_BOOST_ENERGY_COST])]
  norm_num [robotA0, SIDE_BOOST_ENERGY_MAX, SIDE_BOOST_ENERGY_COST,
    SIDE_BOOST_COOLDOWN_TICKS, SIDE_BOOST_BURST_TICKS, SIDE_BOOST_FORCE_SEQUENCE,
    STRAFE_TICKS_PER_TILE, round4, round2, round_eq, initialEnemyMemory]

theorem burst2_eval :
    burst2 =
      ({ robotA0 with
           energy := 261/4
           boostCooldownTicks := 9
           boostBurstTicksRemaining := 3
           boostDirectionLocked := some BoostDirection.RIGHT },
       { requested := true, used := true, direction := some BoostDirection.RIGHT
         deltaX := 0, deltaY := 3333/10000, forceLevel := 4, burstTicksRemaining := 3
         energyBefore := 261/4, energyAfter := 261/4, cooldownRemaining := 9 }) := by
  have h0 : tickSideBoostState
      ({ robotA0 with
           energy := 65
           boostCooldownTicks := 10
           boostBurstTicksRemaining := 4
           boostDirectionLocked := some BoostDirection.RIGHT }) =
      ({ robotA0 with
           energy := 261/4
           boostCooldownTicks := 9
           boostBurstTicksRemaining := 4
           boostDirectionLocked := some BoostDirection.RIGHT }) := by
    norm_num [tickSideBoostState, robotA0, REGEN_PER_TICK,
      SIDE_BOOST_ENERGY_REGEN_PER_SECOND, TICK_DT, SIDE_BOOST_ENERGY_MAX,
      round4, round_eq, initialEnemyMemory]
  rw [burst2, boostTick, burst1_eval, h0,
    resolveSideBoost_continue _ BoostDirection.RIGHT _ rfl (by norm_num) rfl]
  norm_num [robotA0, SIDE_BOOST_ENERGY_MAX, SIDE_BOOST_ENERGY_COST,
    SIDE_BOOST_COOLDOWN_TICKS, SIDE_BOOST_BURST_TICKS, SIDE_BOOST_FORCE_SEQUENCE,
    STRAFE_TICKS_PER_TILE, round4, round2, round_eq, initialEnemyMemory]

theorem burst3_eval :
    burst3 =
      ({ robotA0 with
           energy := 131/2
           boostCooldownTicks := 8
           boostBurstTicksRemaining := 2
           boostDirectionLocked := some BoostDirection.RIGHT },
       { requested := true, used := true, direction := some BoostDirection.RIGHT
         deltaX := 0, deltaY := 2500/10000, forceLevel := 3, burstTicksRemaining := 2
         energyBefore := 131/2, energyAfter := 131/2, cooldownRemaining := 8 }) := by
  have h0 : tickSideBoostState
      ({ robotA0 with
           energy := 261/4
           boostCooldownTicks := 9
           boostBurstTicksRemaining := 3
           boostDirectionLocked := some BoostDirection.RIGHT }) =
      ({ robotA0 with
           energy := 131/2
           boostCooldownTicks := 8
           boostBurstTicksRemaining := 3
           boostDirectionLocked := some BoostDirection.RIGHT }) := by
    norm_num [tickSideBoostState, robotA0, REGEN_PER_TICK,
      SIDE_BOOST_ENERGY_REGEN_PER_SECOND, TICK_DT, SIDE_BOOST_ENERGY_MAX,
      round4, round_eq, initialEnemyMemory]
  rw [burst3, boostTick, burst2_eval, h0,
    resolveSideBoost_continue _ BoostDirection.RIGHT _ rfl (by norm_num) rfl]
  norm_num [robotA0, SIDE_BOOST_ENERGY_MAX, SIDE_BOOST_ENERGY_COST,
    SIDE_BOOST_COOLDOWN_TICKS, SIDE_BOOST_BURST_TICKS, SIDE_BOOST_FORCE_SEQUENCE,
    STRAFE_TICKS_PER_TILE, round4, round2, round_eq, initialEnemyMemory]

theorem burst4_eval :
    burst4 =
      ({ robotA0 with
           energy := 263/4
           boostCooldownTicks := 7
           boostBurstTicksRemaining := 1
           boostDirectionLocked := some BoostDirection.RIGHT },
       { requested := true, used := true, direction := some BoostDirection.RIGHT
         deltaX := 0, deltaY := 1667/10000, forceLevel := 2, burstTicksRemaining := 1
         energyBefore := 263/4, energyAfter := 263/4, cooldownRemaining := 7 }) := by
  have h0 : tickSideBoostState
      ({ robotA0 with
           energy := 131/2
           boostCooldownTicks := 8
           boostBurstTicksRemaining := 2
           boostDirectionLocked := some BoostDirection.RIGHT }) =
      ({ robotA0 with
           energy := 263/4
           boostCooldownTicks := 7
           boostBurstTicksRemaining := 2
           boostDirectionLocked := some BoostDirection.RIGHT }) := by
    norm_num [tickSideBoostState, robotA0, REGEN_PER_TICK,
      SIDE_BOOST_ENERGY_REGEN_PER_SECOND, TICK_DT, SIDE_BOOST_ENERGY_MAX,
      round4, round_eq, initialEnemyMemory]
  rw [burst4, boostTick, burst3_eval, h0,
    resolveSideBoost_continue _ BoostDirection.RIGHT _ rfl (by norm_num) rfl]
  norm_num [robotA0, SIDE_BOOST_ENERGY_MAX, SIDE_BOOST_ENERGY_COST,
    SIDE_BOOST_COOLDOWN_TICKS, SIDE_BOOST_BURST_TICKS, SIDE_BOOST_FORCE_SEQUENCE,
    STRAFE_TICKS_PER_TILE, round4, round2, round_eq, initialEnemyMemory]

theorem burst5_eval :
    burst5 =
      ({ robotA0 with
           energy := 66
           boostCooldownTicks := 6
           boostBurstTicksRemaining := 0
           boostDirectionLocked := none },
       { requested := true, used := true, direction := some BoostDirection.RIGHT
         deltaX := 0, deltaY := 833/10000, forceLevel := 1, burstTicksRemaining := 0
         energyBefore := 66, energyAfter := 66, cooldownRemaining := 6 }) := by
  have h0 : tickSideBoostState
      ({ robotA0 with
           energy := 263/4
           boostCooldownTicks := 7
           boostBurstTicksRemaining := 1
           boostDirectionLocked := some BoostDirection.RIGHT }) =
      ({ robotA0 with
           energy := 66
           boostCooldownTicks := 6
           boostBurstTicksRemaining := 1
           boostDirectionLocked := some BoostDirection.RIGHT }) := by
    norm_num [tickSideBoostState, robotA0, REGEN_PER_TICK,
      SIDE_BOOST_ENERGY_REGEN_PER_SECOND, TICK_DT, SIDE_BOOST_ENERGY_MAX,
      round4, round_eq, initialEnemyMemory]
  rw [burst5, boostTick, burst4_eval, h0,
    resolveSideBoost_continue _ BoostDirection.RIGHT _ rfl (by norm_num) rfl]
  norm_num [robotA0, SIDE_BOOST_ENERGY_MAX, SIDE_BOOST_ENERGY_COST,
    SIDE_BOOST_COOLDOWN_TICKS, SIDE_BOOST_BURST_TICKS, SIDE_BOOST_FORCE_SEQUENCE,
    STRAFE_TICKS_PER_TILE, round4, round2, round_eq, initialEnemyMemory]

/-- C4 as stated is false in one detail: the burst ticks apply the force
distances `level/12` only after rounding each world-frame component to 4
decimals, so the first burst tick moves the robot 0.4167 tiles, not exactly
5/12 = 0.41666…. -/
theorem C4_counterexample :
    burst1.2.deltaY ≠ 5/12 ∧ burst1.2.deltaY = 4167/10000 := by
  rw [burst1_eval]
  norm_num

/-- C4 amended: ignition under the stated preconditions debits exactly 35
energy, sets the boost cooldown to 10, sets the burst to 5 ticks (of which
the ignition tick itself consumes the first), and locks the direction; in
the concrete scenario (energy 100, heading East, `BOOST RIGHT` from tick 1)
the five burst ticks apply lateral deltas `round4(level/12)` =
0.4167, 0.3333, 0.25, 0.1667, 0.0833 tiles to the right, energy is 65 and
the cooldown 10 after tick 1, and the total displacement is exactly
15/12 = 1.25 tiles. -/
theorem C4_amended :
    (∀ (r : RobotState) (d : BoostDirection),
        r.alive = true → r.boostBurstTicksRemaining = 0 →
        r.boostCooldownTicks = 0 → SIDE_BOOST_ENERGY_COST ≤ r.energy →
        Grid4 r.energy →
        (resolveSideBoost r (some d)).1.energy = r.energy - SIDE_BOOST_ENERGY_COST ∧
        (resolveSideBoost r (some d)).1.boostCooldownTicks = SIDE_BOOST_COOLDOWN_TICKS ∧
        (resolveSideBoost r (some d)).1.boostDirectionLocked = some d ∧
        (resolveSideBoost r (some d)).2.used = true ∧
        (resolveSideBoost r (some d)).2.forceLevel = 5 ∧
        (resolveSideBoost r (some d)).2.burstTicksRemaining
          = SIDE_BOOST_BURST_TICKS - 1) ∧
    (burst1.1.energy = 65 ∧ burst1.1.boostCooldownTicks = 10 ∧
      burst1.2.deltaX = 0 ∧ burst1.2.deltaY = 4167/10000 ∧
      burst2.2.deltaY = 3333/10000 ∧ burst3.2.deltaY = 2500/10000 ∧
      burst4.2.deltaY = 1667/10000 ∧ burst5.2.deltaY = 833/10000 ∧
      burst1.2.deltaY + burst2.2.deltaY + burst3.2.deltaY
        + burst4.2.deltaY + burst5.2.deltaY = 5/4) := by
  constructor
  · intro r d halive hburst hcd he hg
    rw [resolveSideBoost_ignite r d halive hburst hcd he]
    refine ⟨?_, rfl, rfl, rfl, rfl, by norm_num [SIDE_BOOST_BURST_TICKS]⟩
    show max 0 (round4 (r.energy - SIDE_BOOST_ENERGY_COST))
      = r.energy - SIDE_BOOST_ENERGY_COST
    exact debit_exact grid_thirtyfive hg he
  · rw [burst1_eval, burst2_eval, burst3_eval, burst4_eval, burst5_eval]
    norm_num

theorem C4_amended_witness :
    (resolveSideBoost robotA0 (some BoostDirection.RIGHT)).1.energy
        = robotA0.energy - SIDE_BOOST_ENERGY_COST ∧
      (resolveSideBoost robotA0 (some BoostDirection.RIGHT)).1.boostCooldownTicks
        = SIDE_BOOST_COOLDOWN_TICKS ∧
      (resolveSideBoost robotA0 (some BoostDirection.RIGHT)).1.boostDirectionLocked
        = some BoostDirection.RIGHT ∧
      (resolveSideBoost robotA0 (some BoostDirection.RIGHT)).2.used = true ∧
      (resolveSideBoost robotA0 (some BoostDirection.RIGHT)).2.forceLevel = 5 ∧
      (resolveSideBoost robotA0 (some BoostDirection.RIGHT)).2.burstTicksRemaining
        = SIDE_BOOST_BURST_TICKS - 1 :=
  C4_amended.1 robotA0 BoostDirection.RIGHT rfl rfl rfl
    (by norm_num [robotA0, SIDE_BOOST_ENERGY_MAX, SIDE_BOOST_ENERGY_COST])
    (by rw [show robotA0.energy = (100:ℚ) from rfl]
        exact (Grid4_iff 100).mpr ⟨1000000, by norm_num⟩)

/-! ### C2: the vision-cone condition of buildPerception -/

/-- the boolean chain of `buildPerception`, flattened into a conjunction
(still in the code's squared encoding). -/
theorem buildPerception_visible_iff (a o : RobotState) :
    (buildPerception a o).enemyVisible = true ↔
      (a.alive = true ∧ o.alive = true ∧
        (o.x - a.x) ^ 2 + (o.y - a.y) ^ 2 ≤ VISION_RADIUS ^ 2 ∧
        0 < (toLocalCoordinates a.hx a.hy (o.x - a.x) (o.y - a.y)).1 ∧
        (toLocalCoordinates a.hx a.hy (o.x - a.x) (o.y - a.y)).2 ^ 2
          ≤ 3 * (max (1/10000)
              (toLocalCoordinates a.hx a.hy (o.x - a.x) (o.y - a.y)).1) ^ 2) := by
  unfold buildPerception
  dsimp only
  by_cases h1 : a.alive = true
  · rw [if_neg (show ¬¬a.alive = true by simp [h1])]
    by_cases h2 : o.alive = true
    · rw [if_neg (show ¬¬o.alive = true by simp [h2])]
      by_cases h3 : (o.x - a.x) ^ 2 + (o.y - a.y) ^ 2 > VISION_RADIUS ^ 2
      · rw [if_pos h3]
        exact iff_of_false (by simp)
          (by rintro ⟨-, -, h, -⟩; exact absurd h (not_le.mpr h3))
      · rw [if_neg h3]
        by_cases h4 : (toLocalCoordinates a.hx a.hy (o.x - a.x) (o.y - a.y)).1 ≤ 0
        · rw [if_pos h4]
          exact iff_of_false (by simp)
            (by rintro ⟨-, -, -, h, -⟩; exact absurd h (not_lt.mpr h4))
        · rw [if_neg h4]
          by_cases h5 : (toLocalCoordinates a.hx a.hy (o.x - a.x) (o.y - a.y)).2 ^ 2
              > 3 * (max (1/10000)
                  (toLocalCoordinates a.hx a.hy (o.x - a.x) (o.y - a.y)).1) ^ 2
          · rw [if_pos h5]
            exact iff_of_false (by simp)
              (by rintro ⟨-, -, -, -, h⟩; exact absurd h (not_le.mpr h5))
          · rw [if_neg h5]
            exact iff_of_true rfl
              ⟨h1, h2, not_lt.mp h3, not_le.mp h4, not_lt.mp h5⟩
    · rw [if_pos (show ¬o.alive = true from h2)]
      exact iff_of_false (by simp) (by rintro ⟨-, h, -⟩; exact h2 h)
  · rw [if_pos (show ¬a.alive = true from h1)]
    exact iff_of_false (by simp) (by rintro ⟨h, -⟩; exact h1 h)

/-- VisionSpec is the claim's visibility condition, in the spec's own terms:
opponent alive, euclidean distance at most `VISION_RADIUS = 8`, forward
component positive, and view angle at most π/3.  Since the second atan2
argument `max(0.0001, forward)` is positive,
`atan2(|lateral|, max(0.0001, forward)) = arctan(|lateral| / max(0.0001, forward))`. -/
def VisionSpec (actor opponent : RobotState) : Prop :=
  opponent.alive = true ∧
    Real.sqrt (((opponent.x - actor.x : ℚ) : ℝ) ^ 2
        + ((opponent.y - actor.y : ℚ) : ℝ) ^ 2) ≤ 8 ∧
    0 < (toLocalCoordinates actor.hx actor.hy
        (opponent.x - actor.x) (opponent.y - actor.y)).1 ∧
    |Real.arctan
        (|((toLocalCoordinates actor.hx actor.hy
              (opponent.x - actor.x) (opponent.y - actor.y)).2 : ℝ)|
          / max (1/10000)
            ((toLocalCoordinates actor.hx actor.hy
                (opponent.x - actor.x) (opponent.y - actor.y)).1 : ℝ))|
      ≤ Real.pi / 3

theorem arctan_le_pi_div_three_iff {t : ℝ} :
    Real.arctan t ≤ Real.pi / 3 ↔ t ≤ Real.sqrt 3 := by
  have h1 : Real.arctan (Real.sqrt 3) = Real.pi / 3 := by
    rw [← Real.tan_pi_div_three]
    exact Real.arctan_tan (by linarith [Real.pi_pos]) (by linarith [Real.pi_pos])
  rw [← h1]
  exact Real.arctan_strictMono.le_iff_le

/-- the distance cut of the vision cone, real sqrt form vs squared form. -/
theorem dist_le_iff (dx dy : ℚ) :
    Real.sqrt ((dx : ℝ) ^ 2 + (dy : ℝ) ^ 2) ≤ 8
      ↔ dx ^ 2 + dy ^ 2 ≤ VISION_RADIUS ^ 2 := by
  rw [Real.sqrt_le_iff, show VISION_RADIUS = (8 : ℚ) from rfl]
  constructor
  · rintro ⟨-, h⟩
    exact_mod_cast h
  · intro h
    exact ⟨by norm_num, by exact_mod_cast h⟩

/-- the angle cut of the vision cone, arctan form vs squared form (`m` is the
positive second atan2 argument). -/
theorem angle_le_iff (l f : ℚ) :
    |Real.arctan (|(l : ℝ)| / max (1/10000) (f : ℝ))| ≤ Real.pi / 3
      ↔ l ^ 2 ≤ 3 * (max (1/10000) f) ^ 2 := by
  set m : ℝ := max (1/10000) (f : ℝ) with hm
  have hmpos : 0 < m := lt_max_of_lt_left (by norm_num)
  have harg : 0 ≤ |(l : ℝ)| / m := div_nonneg (abs_nonneg _) hmpos.le
  have hnn : 0 ≤ Real.arctan (|(l : ℝ)| / m) := by
    have h := Real.arctan_strictMono.monotone harg
    simpa [Real.arctan_zero] using h
  rw [abs_of_nonneg hnn, arctan_le_pi_div_three_iff,
    div_le_iff₀ hmpos]
  have hcast : ((max (1/10000) f : ℚ) : ℝ) = m := by
    rw [hm]; push_cast; ring_nf
  constructor
  · intro h
    have hsq : |(l : ℝ)| ^ 2 ≤ (Real.sqrt 3 * m) ^ 2 :=
      pow_le_pow_left₀ (abs_nonneg _) h 2
    rw [mul_pow, Real.sq_sqrt (by norm_num : (0:ℝ) ≤ 3), sq_abs] at hsq
    have : (l : ℝ) ^ 2 ≤ 3 * ((max (1/10000) f : ℚ) : ℝ) ^ 2 := by
      rw [hcast]; exact hsq
    exact_mod_cast this
  · intro h
    have hR : (l : ℝ) ^ 2 ≤ 3 * ((max (1/10000) f : ℚ) : ℝ) ^ 2 := by
      exact_mod_cast h
    rw [hcast] at hR
    refine le_of_pow_le_pow_left₀ (show (2:ℕ) ≠ 0 by norm_num) (by positivity) ?_
    rw [mul_pow, Real.sq_sqrt (by norm_num : (0:ℝ) ≤ 3), sq_abs]
    exact hR

/-- C2 amended: `enemy_visible = true` iff the ACTOR is alive in addition to
the claim's four conditions (opponent alive, distance ≤ 8, forward > 0,
view angle ≤ π/3); when it is false the enemy record is null. -/
theorem C2_amended (a o : RobotState) :
    ((buildPerception a o).enemyVisible = true
      ↔ a.alive = true ∧ VisionSpec a o) ∧
    ((buildPerception a o).enemyVisible = false →
      (buildPerception a o).enemy = none) := by
  constructor
  · rw [buildPerception_visible_iff]
    unfold VisionSpec
    constructor
    · rintro ⟨h1, h2, h3, h4, h5⟩
      exact ⟨h1, h2, (dist_le_iff _ _).mpr h3, h4, (angle_le_iff _ _).mpr h5⟩
    · rintro ⟨h1, h2, h3, h4, h5⟩
      exact ⟨h1, h2, (dist_le_iff _ _).mp h3, h4, (angle_le_iff _ _).mp h5⟩
  · intro h
    have hs := buildPerception_isSome a o
    rw [h] at hs
    exact Option.not_isSome_iff_eq_none.mp (by simp [hs])

theorem C2_amended_witness :
    (buildPerception robotA0 robotB0).enemy = none :=
  (C2_amended robotA0 robotB0).2 (by rw [buildPerception_start])

/-- a dead actor with a live opponent dead ahead at distance 1. -/
def aDead : RobotState := { robotA0 with alive := false }

def oNear : RobotState := { robotB0 with x := 1, y := 0 }

/-- C2 as stated is false: it omits the actor-alive condition.  For a dead
actor whose live opponent is one tile dead ahead, all four stated conditions
hold yet the perception reports the enemy as not visible. -/
theorem C2_counterexample :
    (buildPerception aDead oNear).enemyVisible = false ∧ VisionSpec aDead oNear := by
  constructor
  · rw [show buildPerception aDead oNear
        = { enemyVisible := false, enemy := none } from rfl]
  · unfold VisionSpec
    refine ⟨rfl, ?_, ?_, ?_⟩
    · norm_num [aDead, oNear, robotA0, robotB0]
    · norm_num [aDead, oNear, robotA0, robotB0, toLocalCoordinates]
    · have hfl : (toLocalCoordinates aDead.hx aDead.hy
          (oNear.x - aDead.x) (oNear.y - aDead.y)) = (1, 0) := by
        norm_num [aDead, oNear, robotA0, robotB0, toLocalCoordinates]
      rw [hfl]
      norm_num [Real.arctan_zero]
      positivity

/-! ### Script AST (parser.ts lines 3-140) and rule evaluation
(battleEngine.ts lines 671-959) -/

inductive ControlField where
  | THROTTLE
  | STRAFE
  | TURN
deriving DecidableEq, Repr

inductive ComparisonOperator where
  | gt
  | ge
  | lt
  | le
  | eq
  | ne
deriving DecidableEq, Repr

inductive SensorVariable where
  | ARENA_SIZE
  | SHOT_RANGE_S
  | SHOT_HIT_RADIUS_S
  | SELF_X
  | SELF_Y
  | SELF_HEADING
  | SELF_ENERGY
  | BOOST_COOLDOWN
  | TICKS_SINCE_ENEMY_SEEN
  | ENEMY_X
  | ENEMY_Y
  | ENEMY_HEADING
  | ENEMY_DX
  | ENEMY_DY
  | ENEMY_DISTANCE
  | ENEMY_FORWARD_DISTANCE
  | ENEMY_LATERAL_OFFSET
  | PREV_ENEMY_X
  | PREV_ENEMY_Y
  | PREV_ENEMY_HEADING
  | PREV_ENEMY_DX
  | PREV_ENEMY_DY
  | PREV_ENEMY_DISTANCE
  | ENEMY_DX_DELTA
  | ENEMY_DY_DELTA
  | ENEMY_DISTANCE_DELTA
  | WALL_AHEAD_DISTANCE
  | WALL_LEFT_DISTANCE
  | WALL_RIGHT_DISTANCE
  | WALL_BACK_DISTANCE
  | WALL_NEAREST_DISTANCE
deriving DecidableEq, Repr

inductive ExpressionFunctionName where
  | ABS
  | MIN
  | MAX
  | CLAMP
  | ATAN2
  | ANGLE_DIFF
  | NORMALIZE_ANGLE
deriving DecidableEq, Repr

inductive ExpressionUnaryOperator where
  | plus
  | neg
deriving DecidableEq, Repr

inductive ExpressionBinaryOperator where
  | add
  | sub
  | mul
  | div
deriving DecidableEq, Repr

inductive NumericExpression where
  | numberLit (value : ℚ)
  | sensor (v : SensorVariable)
  | unary (operator : ExpressionUnaryOperator) (operand : NumericExpression)
  | binary (operator : ExpressionBinaryOperator) (left right : NumericExpression)
  | func (name : ExpressionFunctionName) (args : List NumericExpression)

inductive LogicalOperator where
  | AND
  | OR
deriving DecidableEq, Repr

inductive RuleCondition where
  | visibility (visible : Bool)
  | compare (left : NumericExpression) (operator : ComparisonOperator)
      (right : NumericExpression)
  | logical (operator : LogicalOperator) (left right : RuleCondition)
  | notCond (operand : RuleCondition)

inductive RuleCommand where
  | setControl (field : ControlField) (value : ℚ)
  | fire (enabled : Bool)
  | boost (direction : BoostDirection)
deriving DecidableEq, Repr

/-- ScriptAction (parser.ts lines 135-140); the constant `type: "RULE"` tag
is omitted. -/
structure ScriptAction where
  line : ℕ
  condition : Option RuleCondition
  command : RuleCommand

/-- SensorContext (battleEngine.ts lines 173-176); the value table maps each
sensor to a finite value or `none` (unavailable). -/
structure SensorContext where
  enemyVisible : Bool
  values : SensorVariable → Option ℚ

/-- ratTrunc rounds toward zero, as the JavaScript `%` operator does. -/
def ratTrunc (q : ℚ) : ℤ := if 0 ≤ q then ⌊q⌋ else ⌈q⌉

/-- jsMod models the JavaScript remainder `a % b` (truncated division). -/
def jsMod (a b : ℚ) : ℚ := a - b * (ratTrunc (a / b) : ℚ)

/-- normalizeHeadingDeg (battleEngine.ts lines 393-396). -/
def normalizeHeadingDeg (value : ℚ) : ℚ :=
  let normalized := jsMod value 360
  if normalized < 0 then normalized + 360 else normalized

/-- shortestAngleDiffDeg (battleEngine.ts lines 778-787). -/
def shortestAngleDiffDeg (targetDeg currentDeg : ℚ) : ℚ :=
  let diff := normalizeHeadingDeg targetDeg - normalizeHeadingDeg currentDeg
  if 180 < diff then diff - 360
  else if diff ≤ -180 then diff + 360
  else diff

/-- the function-application tail of `evaluateNumericExpression`
(battleEngine.ts lines 851-869); `atan2Deg` is the parameter standing for
`(Math.atan2(y, x) * 180) / π`. -/
def applyFunction (atan2Deg : ℚ → ℚ → ℚ) (name : ExpressionFunctionName)
    (vals : List ℚ) : ℚ :=
  match name with
  | .ABS => |vals.getD 0 0|
  | .MIN => min (vals.getD 0 0) (vals.getD 1 0)
  | .MAX => max (vals.getD 0 0) (vals.getD 1 0)
  | .CLAMP => min (max (vals.getD 0 0) (vals.getD 1 0)) (vals.getD 2 0)
  | .ATAN2 => normalizeHeadingDeg (atan2Deg (vals.getD 0 0) (vals.getD 1 0))
  | .ANGLE_DIFF => shortestAngleDiffDeg (vals.getD 0 0) (vals.getD 1 0)
  | .NORMALIZE_ANGLE => normalizeHeadingDeg (vals.getD 0 0)

mutual

/-- evaluateNumericExpression (battleEngine.ts lines 789-870).  Over ℚ the
`Number.isFinite` guards are always in the finite branch; the explicit
near-zero divisor guard is kept. -/
def evaluateNumericExpression (atan2Deg : ℚ → ℚ → ℚ) :
    NumericExpression → SensorContext → Option ℚ
  | .numberLit v, _ => some v
  | .sensor v, s => s.values v
  | .unary op e, s =>
      match evaluateNumericExpression atan2Deg e s with
      | none => none
      | some operand =>
          some (if op = ExpressionUnaryOperator.neg then -operand else operand)
  | .binary op l r, s =>
      match evaluateNumericExpression atan2Deg l s with
      | none => none
      | some left =>
          match evaluateNumericExpression atan2Deg r s with
          | none => none
          | some right =>
              match op with
              | .add => some (left + right)
              | .sub => some (left - right)
              | .mul => some (left * right)
              | .div =>
                  if |right| ≤ EPSILON then none else some (left / right)
  | .func name args, s =>
      match evalArgs atan2Deg args s with
      | none => none
      | some vals => some (applyFunction atan2Deg name vals)

/-- the argument loop of the FUNCTION case (battleEngine.ts lines 842-849):
stop at the first unavailable argument. -/
def evalArgs (atan2Deg : ℚ → ℚ → ℚ) :
    List NumericExpression → SensorContext → Option (List ℚ)
  | [], _ => some []
  | e :: es, s =>
      match evaluateNumericExpression atan2Deg e s with
      | none => none
      | some v =>
          match evalArgs atan2Deg es s with
          | none => none
          | some vs => some (v :: vs)

end

/-- compareNumbers (battleEngine.ts lines 671-693); equality comparisons use
the EPSILON tolerance. -/
def compareNumbers (left : ℚ) (op : ComparisonOperator) (right : ℚ) : Bool :=
  match op with
  | .gt => decide (left > right)
  | .ge => decide (left ≥ right)
  | .lt => decide (left < right)
  | .le => decide (left ≤ right)
  | .ne => decide (|left - right| > EPSILON)
  | .eq => decide (|left - right| ≤ EPSILON)

/-- conditionMatched for a present condition (battleEngine.ts lines 877-904). -/
def conditionHolds (atan2Deg : ℚ → ℚ → ℚ) :
    RuleCondition → SensorContext → Bool
  | .visibility v, s => if v then s.enemyVisible else !s.enemyVisible
  | .notCond c, s => !(conditionHolds atan2Deg c s)
  | .logical .AND l r, s => conditionHolds atan2Deg l s && conditionHolds atan2Deg r s
  | .logical .OR l r, s => conditionHolds atan2Deg l s || conditionHolds atan2Deg r s
  | .compare l op r, s =>
      match evaluateNumericExpression atan2Deg l s with
      | none => false
      | some lv =>
          match evaluateNumericExpression atan2Deg r s with
          | none => false
          | some rv => compareNumbers lv op rv

/-- conditionMatched (battleEngine.ts lines 872-876): a missing condition
counts as true. -/
def conditionMatched (atan2Deg : ℚ → ℚ → ℚ) :
    Option RuleCondition → SensorContext → Bool
  | none, _ => true
  | some c, s => conditionHolds atan2Deg c s

/-- ControlState (battleEngine.ts lines 159-165). -/
structure ControlState where
  throttle : ℚ
  strafe : ℚ
  turn : ℚ
  fire : Bool
  boost : Option BoostDirection
deriving DecidableEq, Repr

/-- neutralControls (battleEngine.ts lines 906-914). -/
def neutralControls : ControlState :=
  { throttle := 0, strafe := 0, turn := 0, fire := false, boost := none }

/-- applyRuleCommand (battleEngine.ts lines 916-938): each command
overwrites only its own field. -/
def applyRuleCommand (controls : ControlState) : RuleCommand → ControlState
  | .setControl .THROTTLE v => { controls with throttle := v }
  | .setControl .STRAFE v => { controls with strafe := v }
  | .setControl .TURN v => { controls with turn := v }
  | .fire e => { controls with fire := e }
  | .boost d => { controls with boost := some d }

/-- ControlDecision (battleEngine.ts lines 167-171). -/
structure ControlDecision where
  totalRules : ℕ
  controls : ControlState
  matchedRuleLines : List ℕ
deriving DecidableEq, Repr

/-- the loop body of `resolveControls` (battleEngine.ts lines 944-952). -/
def resolveStep (atan2Deg : ℚ → ℚ → ℚ) (s : SensorContext)
    (acc : ControlState × List ℕ) (rule : ScriptAction) : ControlState × List ℕ :=
  if conditionMatched atan2Deg rule.condition s = true then
    (applyRuleCommand acc.1 rule.command, acc.2 ++ [rule.line])
  else acc

/-- resolveControls (battleEngine.ts lines 940-959): walk the rules in source
order from the neutral control state. -/
def resolveControls (atan2Deg : ℚ → ℚ → ℚ) (program : List ScriptAction)
    (s : SensorContext) : ControlDecision :=
  let result := program.foldl (resolveStep atan2Deg s) (neutralControls, [])
  { totalRules := program.length
    controls := result.1
    matchedRuleLines := result.2 }

/-- matchedWrites lists, in source order, the values that matched rules
write into the field selected by `sel`. -/
def matchedWrites {α : Type} (atan2Deg : ℚ → ℚ → ℚ) (program : List ScriptAction)
    (s : SensorContext) (sel : RuleCommand → Option α) : List α :=
  program.filterMap fun rule =>
    if conditionMatched atan2Deg rule.condition s = true then sel rule.command
    else none

def selThrottle : RuleCommand → Option ℚ
  | .setControl .THROTTLE v => some v
  | _ => none

def selStrafe : RuleCommand → Option ℚ
  | .setControl .STRAFE v => some v
  | _ => none

def selTurn : RuleCommand → Option ℚ
  | .setControl .TURN v => some v
  | _ => none

def selFire : RuleCommand → Option Bool
  | .fire e => some e
  | _ => none

def selBoost : RuleCommand → Option (Option BoostDirection)
  | .boost d => some (some d)
  | _ => none

theorem foldl_lastWrite {α : Type} (atan2Deg : ℚ → ℚ → ℚ)
    (proj : ControlState → α) (sel : RuleCommand → Option α)
    (hcompat : ∀ c cmd, proj (applyRuleCommand c cmd) = (sel cmd).getD (proj c))
    (p : List ScriptAction) (s : SensorContext) :
    ∀ init : ControlState × List ℕ,
      proj (p.foldl (resolveStep atan2Deg s) init).1
        = (matchedWrites atan2Deg p s sel).getLastD (proj init.1) := by
  induction p with
  | nil => intro init; rfl
  | cons r p ih =>
    intro init
    rw [List.foldl_cons]
    unfold matchedWrites
    rw [List.filterMap_cons]
    by_cases hm : conditionMatched atan2Deg r.condition s = true
    · rw [if_pos hm]
      have hstep : resolveStep atan2Deg s init r
          = (applyRuleCommand init.1 r.command, init.2 ++ [r.line]) := by
        unfold resolveStep
        rw [if_pos hm]
      rw [hstep]
      cases hsel : sel r.command with
      | none =>
          have := ih (applyRuleCommand init.1 r.command, init.2 ++ [r.line])
          rw [this, hcompat, hsel]
          rfl
      | some v =>
          have := ih (applyRuleCommand init.1 r.command, init.2 ++ [r.line])
          rw [this, hcompat, hsel, List.getLastD_cons]
          rfl
    · rw [if_neg hm]
      have hstep : resolveStep atan2Deg s init r = init := by
        unfold resolveStep
        rw [if_neg hm]
      rw [hstep]
      exact ih init

/-- C7: rule evaluation starts from the neutral controls, walks the rules in
source order (a missing condition counts as true), and each matched command
overwrites only its own field, so every field of the result equals the value
written by the last matched rule targeting it, or its neutral value if no
matched rule targets it. -/
theorem C7_last_match_wins (atan2Deg : ℚ → ℚ → ℚ) (p : List ScriptAction)
    (s : SensorContext) :
    (resolveControls atan2Deg p s).controls.throttle
        = (matchedWrites atan2Deg p s selThrottle).getLastD neutralControls.throttle ∧
    (resolveControls atan2Deg p s).controls.strafe
        = (matchedWrites atan2Deg p s selStrafe).getLastD neutralControls.strafe ∧
    (resolveControls atan2Deg p s).controls.turn
        = (matchedWrites atan2Deg p s selTurn).getLastD neutralControls.turn ∧
    (resolveControls atan2Deg p s).controls.fire
        = (matchedWrites atan2Deg p s selFire).getLastD neutralControls.fire ∧
    (resolveControls atan2Deg p s).controls.boost
        = (matchedWrites atan2Deg p s selBoost).getLastD neutralControls.boost := by
  refine ⟨?_, ?_, ?_, ?_, ?_⟩
  · exact foldl_lastWrite atan2Deg (fun c => c.throttle) selThrottle
      (by intro c cmd; rcases cmd with ⟨f, v⟩ | e | d <;> try rfl
          rcases f <;> rfl) p s (neutralControls, [])
  · exact foldl_lastWrite atan2Deg (fun c => c.strafe) selStrafe
      (by intro c cmd; rcases cmd with ⟨f, v⟩ | e | d <;> try rfl
          rcases f <;> rfl) p s (neutralControls, [])
  · exact foldl_lastWrite atan2Deg (fun c => c.turn) selTurn
      (by intro c cmd; rcases cmd with ⟨f, v⟩ | e | d <;> try rfl
          rcases f <;> rfl) p s (neutralControls, [])
  · exact foldl_lastWrite atan2Deg (fun c => c.fire) selFire
      (by intro c cmd; rcases cmd with ⟨f, v⟩ | e | d <;> try rfl
          rcases f <;> rfl) p s (neutralControls, [])
  · exact foldl_lastWrite atan2Deg (fun c => c.boost) selBoost
      (by intro c cmd; rcases cmd with ⟨f, v⟩ | e | d <;> try rfl
          rcases f <;> rfl) p s (neutralControls, [])

/-! ### C8: unavailability and numeric-hazard propagation -/

mutual

/-- mentionsUnavailableSensor: the expression references at least one sensor
whose value is unavailable in the given context. -/
def mentionsUnavailableSensor : NumericExpression → SensorContext → Bool
  | .numberLit _, _ => false
  | .sensor v, s => (s.values v).isNone
  | .unary _ e, s => mentionsUnavailableSensor e s
  | .binary _ l r, s => mentionsUnavailableSensor l s || mentionsUnavailableSensor r s
  | .func _ args, s => mentionsAnyUnavailable args s

def mentionsAnyUnavailable : List NumericExpression → SensorContext → Bool
  | [], _ => false
  | e :: es, s => mentionsUnavailableSensor e s || mentionsAnyUnavailable es s

end

/-- Subexpr t e: t occurs inside e. -/
inductive Subexpr : NumericExpression → NumericExpression → Prop where
  | refl (e : NumericExpression) : Subexpr e e
  | unary (op : ExpressionUnaryOperator) (e t : NumericExpression) :
      Subexpr t e → Subexpr t (.unary op e)
  | binaryL (op : ExpressionBinaryOperator) (l r t : NumericExpression) :
      Subexpr t l → Subexpr t (.binary op l r)
  | binaryR (op : ExpressionBinaryOperator) (l r t : NumericExpression) :
      Subexpr t r → Subexpr t (.binary op l r)
  | funcArg (name : ExpressionFunctionName) (args : List NumericExpression)
      (a t : NumericExpression) : a ∈ args → Subexpr t a →
      Subexpr t (.func name args)

theorem evalArgs_none_of_mem (atan2Deg : ℚ → ℚ → ℚ)
    (args : List NumericExpression) (s : SensorContext)
    (a : NumericExpression) (ha : a ∈ args)
    (hnone : evaluateNumericExpression atan2Deg a s = none) :
    evalArgs atan2Deg args s = none := by
  induction args with
  | nil => cases ha
  | cons e es ih =>
    rw [evalArgs]
    rcases List.mem_cons.mp ha with rfl | hmem
    · rw [hnone]
    · cases he : evaluateNumericExpression atan2Deg e s with
      | none => rfl
      | some v => rw [ih hmem]

/-- a `none` subexpression makes the whole expression evaluate to `none`:
every evaluator case short-circuits on an unavailable part. -/
theorem eval_none_of_subexpr (atan2Deg : ℚ → ℚ → ℚ)
    (t e : NumericExpression) (s : SensorContext) (hsub : Subexpr t e)
    (hnone : evaluateNumericExpression atan2Deg t s = none) :
    evaluateNumericExpression atan2Deg e s = none := by
  induction hsub with
  | refl e => exact hnone
  | unary op e t _ ih =>
    rw [evaluateNumericExpression, ih hnone]
  | binaryL op l r t _ ih =>
    rw [evaluateNumericExpression, ih hnone]
  | binaryR op l r t _ ih =>
    rw [evaluateNumericExpression]
    cases hl : evaluateNumericExpression atan2Deg l s with
    | none => rfl
    | some lv => rw [ih hnone]
  | funcArg name args a t hmem _ ih =>
    rw [evaluateNumericExpression,
      evalArgs_none_of_mem atan2Deg args s a hmem (ih hnone)]

mutual

theorem eval_none_of_mentions (atan2Deg : ℚ → ℚ → ℚ) :
    ∀ (e : NumericExpression) (s : SensorContext),
      mentionsUnavailableSensor e s = true →
      evaluateNumericExpression atan2Deg e s = none
  | .numberLit v, s, h => by
      rw [mentionsUnavailableSensor] at h
      cases h
  | .sensor v, s, h => by
      rw [mentionsUnavailableSensor] at h
      rw [evaluateNumericExpression]
      exact Option.eq_none_iff_forall_not_mem.mpr
        (fun a ha => by rw [Option.isNone_iff_eq_none.mp h] at ha; cases ha)
  | .unary op e, s, h => by
      rw [mentionsUnavailableSensor] at h
      rw [evaluateNumericExpression, eval_none_of_mentions atan2Deg e s h]
  | .binary op l r, s, h => by
      rw [mentionsUnavailableSensor] at h
      rw [evaluateNumericExpression]
      rcases Bool.or_eq_true_iff.mp h with hl | hr
      · rw [eval_none_of_mentions atan2Deg l s hl]
      · cases hle : evaluateNumericExpression atan2Deg l s with
        | none => rfl
        | some lv => rw [eval_none_of_mentions atan2Deg r s hr]
  | .func name args, s, h => by
      rw [mentionsUnavailableSensor] at h
      rw [evaluateNumericExpression, evalArgs_none_of_any atan2Deg args s h]

theorem evalArgs_none_of_any (atan2Deg : ℚ → ℚ → ℚ) :
    ∀ (args : List NumericExpression) (s : SensorContext),
      mentionsAnyUnavailable args s = true → evalArgs atan2Deg args s = none
  | [], s, h => by
      rw [mentionsAnyUnavailable] at h
      cases h
  | e :: es, s, h => by
      rw [mentionsAnyUnavailable] at h
      rw [evalArgs]
      rcases Bool.or_eq_true_iff.mp h with he | hes
      · rw [eval_none_of_mentions atan2Deg e s he]
      · cases hee : evaluateNumericExpression atan2Deg e s with
        | none => rfl
        | some v => rw [evalArgs_none_of_any atan2Deg es s hes]

end

/-- C8: an expression referencing an unavailable sensor evaluates to
unavailable; an unavailable subexpression (in particular a division whose
divisor is within EPSILON of zero, the numeric hazard representable over ℚ)
propagates to the whole expression; and a Compare condition with an
unavailable side evaluates to false.  All of this holds for any
interpretation `atan2Deg` of `Math.atan2`. -/
theorem C8_unavailable_policy (atan2Deg : ℚ → ℚ → ℚ) :
    (∀ (e : NumericExpression) (s : SensorContext),
        mentionsUnavailableSensor e s = true →
        evaluateNumericExpression atan2Deg e s = none) ∧
    (∀ (t e : NumericExpression) (s : SensorContext), Subexpr t e →
        evaluateNumericExpression atan2Deg t s = none →
        evaluateNumericExpression atan2Deg e s = none) ∧
    (∀ (l r : NumericExpression) (s : SensorContext) (v : ℚ),
        evaluateNumericExpression atan2Deg r s = some v → |v| ≤ EPSILON →
        evaluateNumericExpression atan2Deg
          (.binary ExpressionBinaryOperator.div l r) s = none) ∧
    (∀ (l r : NumericExpression) (op : ComparisonOperator) (s : SensorContext),
        evaluateNumericExpression atan2Deg l s = none ∨
          evaluateNumericExpression atan2Deg r s = none →
        conditionHolds atan2Deg (.compare l op r) s = false) := by
  refine ⟨eval_none_of_mentions atan2Deg, eval_none_of_subexpr atan2Deg, ?_, ?_⟩
  · intro l r s v hv heps
    rw [evaluateNumericExpression]
    cases hl : evaluateNumericExpression atan2Deg l s with
    | none => rfl
    | some lv =>
        rw [hv]
        dsimp only
        rw [if_pos heps]
  · intro l r op s h
    rw [conditionHolds]
    rcases h with hl | hr
    · rw [hl]
    · cases hle : evaluateNumericExpression atan2Deg l s with
      | none => rfl
      | some lv => rw [hr]

/-- a context in which every sensor is unavailable. -/
def emptySensors : SensorContext :=
  { enemyVisible := false, values := fun _ => none }

theorem C8_unavailable_policy_witness :
    evaluateNumericExpression (fun _ _ => 0)
      (.sensor SensorVariable.ENEMY_X) emptySensors = none :=
  (C8_unavailable_policy (fun _ _ => 0)).1 (.sensor SensorVariable.ENEMY_X)
    emptySensors rfl

/-! ### C6: projectile advance and hit traces
(battleEngine.ts lines 470-546, 1324-1460, 1781-1802) -/

inductive ArenaWallSide where
  | NORTH
  | EAST
  | SOUTH
  | WEST
deriving DecidableEq, Repr

structure WallRayHit where
  pointX : ℚ
  pointY : ℚ
  side : ArenaWallSide
  distance : ℚ
deriving DecidableEq, Repr

/-- the first candidate of minimal distance, as the source's stable
ascending sort followed by taking the head. -/
def selectNearest : List WallRayHit → Option WallRayHit
  | [] => none
  | c :: cs =>
      match selectNearest cs with
      | none => some c
      | some best => if c.distance ≤ best.distance then some c else some best

/-- buildWallRayHit (battleEngine.ts lines 470-546): nearest positive
boundary intersection of the ray, in candidate order WEST, EAST, NORTH,
SOUTH. -/
def buildWallRayHit (ox oy dx dy arenaSize : ℚ) : WallRayHit :=
  let maxCoord := arenaSize - 1
  let xCandidates :=
    if |dx| > EPSILON then
      (let tWest := (0 - ox) / dx
       if tWest > EPSILON then
         (let y := oy + tWest * dy
          if -EPSILON ≤ y ∧ y ≤ maxCoord + EPSILON then
            [{ pointX := 0, pointY := round4 (max 0 (min maxCoord y))
               side := ArenaWallSide.WEST, distance := tWest }]
          else [])
       else []) ++
      (let tEast := (maxCoord - ox) / dx
       if tEast > EPSILON then
         (let y := oy + tEast * dy
          if -EPSILON ≤ y ∧ y ≤ maxCoord + EPSILON then
            [{ pointX := maxCoord, pointY := round4 (max 0 (min maxCoord y))
               side := ArenaWallSide.EAST, distance := tEast }]
          else [])
       else [])
    else []
  let yCandidates :=
    if |dy| > EPSILON then
      (let tNorth := (0 - oy) / dy
       if tNorth > EPSILON then
         (let x := ox + tNorth * dx
          if -EPSILON ≤ x ∧ x ≤ maxCoord + EPSILON then
            [{ pointX := round4 (max 0 (min maxCoord x)), pointY := 0
               side := ArenaWallSide.NORTH, distance := tNorth }]
          else [])
       else []) ++
      (let tSouth := (maxCoord - oy) / dy
       if tSouth > EPSILON then
         (let x := ox + tSouth * dx
          if -EPSILON ≤ x ∧ x ≤ maxCoord + EPSILON then
            [{ pointX := round4 (max 0 (min maxCoord x)), pointY := maxCoord
               side := ArenaWallSide.SOUTH, distance := tSouth }]
          else [])
       else [])
    else []
  match selectNearest (xCandidates ++ yCandidates) with
  | none =>
      { pointX := round4 ox, pointY := round4 oy
        side := ArenaWallSide.NORTH, distance := 0 }
  | some nearest => { nearest with distance := round4 nearest.distance }

/-- pointToSegmentDistance (battleEngine.ts lines 1324-1342), in squared
form: both branches return the square of the source's hypot, and the only
consumer compares against `SHOT_HIT_RADIUS`, so `d ≤ 0.36 ↔ d² ≤ 0.36²`. -/
def pointToSegmentDistanceSq (px py sx sy ex ey : ℚ) : ℚ :=
  let segmentDx := ex - sx
  let segmentDy := ey - sy
  let lengthSquared := segmentDx ^ 2 + segmentDy ^ 2
  if lengthSquared ≤ EPSILON then (px - sx) ^ 2 + (py - sy) ^ 2
  else
    let projection := ((px - sx) * segmentDx + (py - sy) * segmentDy)
      / max EPSILON lengthSquared
    let clamped := max 0 (min 1 projection)
    let cx := sx + segmentDx * clamped
    let cy := sy + segmentDy * clamped
    (px - cx) ^ 2 + (py - cy) ^ 2

/-- findRobotById (battleEngine.ts lines 1344-1354). -/
def findRobotById (robotA robotB : RobotState) (robotId : String) :
    Option RobotState :=
  if robotA.id = robotId then some robotA
  else if robotB.id = robotId then some robotB
  else none

/-- ProjectileTrace models the `Projectile` trace record (battleEngine.ts
lines 69-76); the cardinal `direction` is display-only and omitted. -/
structure ProjectileTrace where
  fromX : ℚ
  fromY : ℚ
  toX : ℚ
  toY : ℚ
  range : ℚ
  hit : Bool
  targetRobotId : Option String
deriving DecidableEq, Repr

/-- ProjectileAdvanceResult (battleEngine.ts lines 244-250); the
`traceByShooter`/`hitByShooter` display maps are omitted. -/
structure ProjectileAdvanceResult where
  traces : List ProjectileTrace
  pendingKills : List String
  nextProjectiles : List InFlightProjectile
deriving DecidableEq, Repr

/-- the loop body of `advanceProjectiles` (battleEngine.ts lines 1369-1451)
for one in-flight projectile. -/
def advanceOne (robotA robotB : RobotState) (arenaSize : ℚ)
    (acc : ProjectileAdvanceResult) (projectile : InFlightProjectile) :
    ProjectileAdvanceResult :=
  let remainingRange := projectile.maxRange - projectile.traveledDistance
  if remainingRange ≤ EPSILON then acc
  else
    let wallHit := buildWallRayHit projectile.x projectile.y
      projectile.dirX projectile.dirY arenaSize
    let stepDistance := min (min PROJECTILE_STEP remainingRange)
      (max 0 wallHit.distance)
    if stepDistance ≤ EPSILON then acc
    else
      let endX := round4 (projectile.x + projectile.dirX * stepDistance)
      let endY := round4 (projectile.y + projectile.dirY * stepDistance)
      let hitTarget :=
        match findRobotById robotA robotB projectile.targetRobotId with
        | some target =>
            if target.alive = true ∧ target.id ∉ acc.pendingKills ∧
                pointToSegmentDistanceSq (round4 target.x) (round4 target.y)
                  projectile.x projectile.y endX endY ≤ SHOT_HIT_RADIUS ^ 2 then
              some target
            else none
        | none => none
      match hitTarget with
      | some target =>
          { acc with
              traces := acc.traces ++
                [{ fromX := round4 projectile.x, fromY := round4 projectile.y
                   toX := round4 target.x, toY := round4 target.y
                   range := projectile.maxRange, hit := true
                   targetRobotId := some target.id }]
              pendingKills := acc.pendingKills ++ [target.id] }
      | none =>
          let trace : ProjectileTrace :=
            { fromX := round4 projectile.x, fromY := round4 projectile.y
              toX := endX, toY := endY, range := projectile.maxRange
              hit := false, targetRobotId := none }
          let traveledDistance := projectile.traveledDistance + stepDistance
          if projectile.maxRange - EPSILON ≤ traveledDistance ∨
              wallHit.distance ≤ stepDistance + EPSILON then
            { acc with traces := acc.traces ++ [trace] }
          else
            { acc with
                traces := acc.traces ++ [trace]
                nextProjectiles := acc.nextProjectiles ++
                  [{ projectile with
                       x := endX, y := endY
                       traveledDistance := round4 traveledDistance }] }

/-- advanceProjectiles (battleEngine.ts lines 1356-1460). -/
def advanceProjectiles (projectiles : List InFlightProjectile)
    (robotA robotB : RobotState) (arenaSize : ℚ) : ProjectileAdvanceResult :=
  projectiles.foldl (advanceOne robotA robotB arenaSize)
    { traces := [], pendingKills := [], nextProjectiles := [] }

/-- the pending-kill application of the tick loop
(battleEngine.ts lines 1781-1786), per robot. -/
def applyKills (r : RobotState) (pendingKills : List String) : RobotState :=
  if r.id ∈ pendingKills then { r with alive := false } else r

/-- HitTraceOk: a hit trace names one of the two robots as target, its `to`
point is that robot's position rounded to 4 decimals, and that robot is in
the pending-kill set. -/
def HitTraceOk (a b : RobotState) (tr : ProjectileTrace)
    (kills : List String) : Prop :=
  tr.hit = true → ∃ t : RobotState, (t = a ∨ t = b) ∧
    tr.targetRobotId = some t.id ∧ tr.toX = round4 t.x ∧ tr.toY = round4 t.y ∧
    t.id ∈ kills

theorem findRobotById_cases (a b : RobotState) (robotId : String)
    (t : RobotState) (h : findRobotById a b robotId = some t) :
    t = a ∨ t = b := by
  unfold findRobotById at h
  split at h
  · exact Or.inl (Option.some_injective _ h).symm
  · split at h
    · exact Or.inr (Option.some_injective _ h).symm
    · cases h

theorem HitTraceOk_mono (a b : RobotState) (tr : ProjectileTrace)
    (kills kills' : List String) (hsub : ∀ x ∈ kills, x ∈ kills')
    (h : HitTraceOk a b tr kills) : HitTraceOk a b tr kills' := by
  intro hhit
  obtain ⟨t, hab, hid, hx, hy, hmem⟩ := h hhit
  exact ⟨t, hab, hid, hx, hy, hsub t.id hmem⟩

theorem advanceOne_preserves (a b : RobotState) (n : ℚ)
    (acc : ProjectileAdvanceResult) (p : InFlightProjectile)
    (hacc : ∀ tr ∈ acc.traces, HitTraceOk a b tr acc.pendingKills) :
    ∀ tr ∈ (advanceOne a b n acc p).traces,
      HitTraceOk a b tr (advanceOne a b n acc p).pendingKills := by
  unfold advanceOne
  dsimp only
  split
  · exact hacc
  · split
    · exact hacc
    · split
      · rename_i target hmatch
        intro tr htr
        rcases List.mem_append.mp htr with hold | hnew
        · refine HitTraceOk_mono a b tr acc.pendingKills _
            (fun x hx => List.mem_append_left _ hx) (hacc tr hold)
        · rw [List.mem_singleton.mp hnew]
          intro _
          have htgt : findRobotById a b p.targetRobotId = some target ∧
              target.alive = true := by
            revert hmatch
            split
            · rename_i t0 hfind
              split
              · rename_i hcond
                intro he
                rw [← Option.some_injective _ he]
                exact ⟨hfind, hcond.1⟩
              · intro he; cases he
            · intro he; cases he
          refine ⟨target, findRobotById_cases a b p.targetRobotId target htgt.1,
            rfl, rfl, rfl, List.mem_append_right _ (List.mem_singleton.mpr rfl)⟩
      · split
        · intro tr htr
          rcases List.mem_append.mp htr with hold | hnew
          · exact hacc tr hold
          · rw [List.mem_singleton.mp hnew]
            intro hhit
            cases hhit
        · intro tr htr
          rcases List.mem_append.mp htr with hold | hnew
          · exact hacc tr hold
          · rw [List.mem_singleton.mp hnew]
            intro hhit
            cases hhit

theorem advance_foldl_preserves (a b : RobotState) (n : ℚ) :
    ∀ (ps : List InFlightProjectile) (acc : ProjectileAdvanceResult),
      (∀ tr ∈ acc.traces, HitTraceOk a b tr acc.pendingKills) →
      ∀ tr ∈ (ps.foldl (advanceOne a b n) acc).traces,
        HitTraceOk a b tr (ps.foldl (advanceOne a b n) acc).pendingKills := by
  intro ps
  induction ps with
  | nil => intro acc hacc; exact hacc
  | cons p ps ih =>
    intro acc hacc
    rw [List.foldl_cons]
    exact ih (advanceOne a b n acc p) (advanceOne_preserves a b n acc p hacc)

/-- C6: every projectile trace with `hit = true` names one of the two robots
as its target, its `to` point is that robot's position rounded to 4
decimals, the robot is in the tick's pending-kill set, and after the tick
loop applies the pending kills (before taking the end snapshot) that robot's
`alive` flag is false. -/
theorem C6_hit_trace_kills (ps : List InFlightProjectile) (a b : RobotState)
    (n : ℚ) :
    ∀ tr ∈ (advanceProjectiles ps a b n).traces, tr.hit = true →
      ∃ t : RobotState, (t = a ∨ t = b) ∧ tr.targetRobotId = some t.id ∧
        tr.toX = round4 t.x ∧ tr.toY = round4 t.y ∧
        t.id ∈ (advanceProjectiles ps a b n).pendingKills ∧
        (applyKills t (advanceProjectiles ps a b n).pendingKills).alive = false := by
  intro tr htr hhit
  have h := advance_foldl_preserves a b n ps
    { traces := [], pendingKills := [], nextProjectiles := [] }
    (by intro tr0 htr0; cases htr0) tr htr hhit
  obtain ⟨t, hab, hid, hx, hy, hmem⟩ := h
  refine ⟨t, hab, hid, hx, hy, hmem, ?_⟩
  unfold applyKills
  rw [if_pos (show t.id ∈ (advanceProjectiles ps a b n).pendingKills from hmem)]

/-- a concrete hit: robot B stands 0.2 tiles east of A's projectile start. -/
def wTarget : RobotState := { robotB0 with x := 1/5, y := 0 }

def wProj : InFlightProjectile :=
  { shooterRobotId := "A", targetRobotId := "B", x := 0, y := 0
    dirX := 1, dirY := 0, traveledDistance := 0, maxRange := SHOT_RANGE }

def wTrace : ProjectileTrace :=
  { fromX := 0, fromY := 0, toX := 1/5, toY := 0, range := SHOT_RANGE
    hit := true, targetRobotId := some "B" }

theorem wAdvance_eval :
    advanceProjectiles [wProj] robotA0 wTarget 10 =
      { traces := [wTrace], pendingKills := ["B"], nextProjectiles := [] } := by
  norm_num [advanceProjectiles, advanceOne, wProj, robotA0, wTarget, robotB0,
    buildWallRayHit, selectNearest, pointToSegmentDistanceSq, findRobotById,
    PROJECTILE_STEP, PROJECTILE_TICKS_PER_TILE, TICK_DT, EPSILON, SHOT_RANGE,
    SHOT_HIT_RADIUS, round4, round_eq, wTrace, initialEnemyMemory,
    SIDE_BOOST_ENERGY_MAX]
  rw [if_neg (show ¬("A" : String) = "B" by decide)]
  norm_num

theorem C6_hit_trace_kills_witness :
    ∃ t : RobotState, (t = robotA0 ∨ t = wTarget) ∧
      wTrace.targetRobotId = some t.id ∧
      wTrace.toX = round4 t.x ∧ wTrace.toY = round4 t.y ∧
      t.id ∈ (advanceProjectiles [wProj] robotA0 wTarget 10).pendingKills ∧
      (applyKills t
        (advanceProjectiles [wProj] robotA0 wTarget 10).pendingKills).alive
        = false :=
  C6_hit_trace_kills [wProj] robotA0 wTarget 10 wTrace
    (by rw [wAdvance_eval]; exact List.mem_singleton.mpr rfl) rfl

/-! ### C9: the script front end (parser.ts).
Errors are modelled as `Except.error` with simplified message text (the
source interpolates line numbers and token text into its messages; only the
fact of failure and the failing check matter to the claims). -/

def MAX_SCRIPT_LINES : ℕ := 200

/-- splitLines models `scriptText.split(/\r?\n/)`. -/
def splitLinesAux : List Char → List Char → List String
  | [], acc => [String.mk acc.reverse]
  | '\r' :: '\n' :: rest, acc => String.mk acc.reverse :: splitLinesAux rest []
  | '\n' :: rest, acc => String.mk acc.reverse :: splitLinesAux rest []
  | c :: rest, acc => splitLinesAux rest (c :: acc)

def splitLines (s : String) : List String := splitLinesAux s.toList []

/-- splitWs models `text.split(/\s+/).filter(Boolean)` on trimmed text (and
plain `trimmed.split(/\s+/)`, which on a trimmed non-empty string produces no
empty tokens either). -/
def splitWsAux : List Char → List Char → List String
  | [], acc => if acc.isEmpty then [] else [String.mk acc.reverse]
  | c :: rest, acc =>
      if c.isWhitespace then
        if acc.isEmpty then splitWsAux rest []
        else String.mk acc.reverse :: splitWsAux rest []
      else splitWsAux rest (c :: acc)

def splitWs (s : String) : List String := splitWsAux s.toList []

def digitsToNat (ds : List Char) : ℕ :=
  ds.foldl (fun acc c => acc * 10 + (c.toNat - '0'.toNat)) 0

/-- jsParseFloat models `Number.parseFloat` on a whitespace-free token:
longest valid prefix of `[+-]? (digits [. digits?] | . digits) ([eE][+-]?digits)?`,
`none` when no number can be parsed (NaN) or the input denotes Infinity —
both make the caller's `Number.isFinite` check fail identically. -/
def jsParseFloat (s : String) : Option ℚ :=
  let cs := s.toList
  let (sign, rest) : ℚ × List Char :=
    match cs with
    | '+' :: r => (1, r)
    | '-' :: r => (-1, r)
    | r => (1, r)
  let (intDigits, rest1) := rest.span Char.isDigit
  let (fracDigits, rest2) :=
    match rest1 with
    | '.' :: r => r.span Char.isDigit
    | _ => ([], rest1)
  if intDigits.isEmpty ∧ fracDigits.isEmpty then none
  else
    let mantissa : ℚ :=
      (digitsToNat intDigits : ℚ)
        + (digitsToNat fracDigits : ℚ) / ((10 : ℚ) ^ fracDigits.length)
    let expVal : ℤ :=
      match rest2 with
      | 'e' :: r | 'E' :: r =>
          let (esign, r2) : ℤ × List Char :=
            match r with
            | '+' :: rr => (1, rr)
            | '-' :: rr => (-1, rr)
            | rr => (1, rr)
          let (eDigits, _) := r2.span Char.isDigit
          if eDigits.isEmpty then 0 else esign * (digitsToNat eDigits : ℤ)
      | _ => 0
    some (sign * mantissa * (10 : ℚ) ^ expVal)

/-- parseNormalizedNumber (parser.ts lines 180-187). -/
def parseNormalizedNumber (tok : String) : Except String ℚ :=
  match jsParseFloat tok with
  | none => Except.error "value must be a finite number"
  | some v => Except.ok v

/-- parseControlValue (parser.ts lines 189-196). -/
def parseControlValue (tok : String) : Except String ℚ :=
  match parseNormalizedNumber tok with
  | Except.error e => Except.error e
  | Except.ok value =>
      if value < -1 ∨ 1 < value then
        Except.error "value must be between -1 and 1"
      else Except.ok (round4 value)

/-- parseSetControl (parser.ts lines 198-213). -/
def parseSetControl (tokens : List String) : Except String RuleCommand :=
  match tokens with
  | [_, f, v] =>
      let field := f.toUpper
      if field = "THROTTLE" then
        (parseControlValue v).map (RuleCommand.setControl ControlField.THROTTLE)
      else if field = "STRAFE" then
        (parseControlValue v).map (RuleCommand.setControl ControlField.STRAFE)
      else if field = "TURN" then
        (parseControlValue v).map (RuleCommand.setControl ControlField.TURN)
      else Except.error "SET field must be THROTTLE, STRAFE, or TURN"
  | _ => Except.error "SET must be written as SET THROTTLE|STRAFE|TURN <-1..1>"

/-- parseFire (parser.ts lines 215-234); `SHOOT` routes here too. -/
def parseFire (tokens : List String) : Except String RuleCommand :=
  match tokens with
  | [_] => Except.ok (RuleCommand.fire true)
  | [_, m] =>
      let mode := m.toUpper
      if mode = "ON" ∨ mode = "1" ∨ mode = "TRUE" then
        Except.ok (RuleCommand.fire true)
      else if mode = "OFF" ∨ mode = "0" ∨ mode = "FALSE" then
        Except.ok (RuleCommand.fire false)
      else Except.error "FIRE mode must be ON or OFF"
  | _ => Except.error "FIRE must be FIRE or FIRE ON|OFF"

/-- parseBoost (parser.ts lines 236-250). -/
def parseBoost (tokens : List String) : Except String RuleCommand :=
  match tokens with
  | [_, d] =>
      let direction := d.toUpper
      if direction = "LEFT" then Except.ok (RuleCommand.boost BoostDirection.LEFT)
      else if direction = "RIGHT" then
        Except.ok (RuleCommand.boost BoostDirection.RIGHT)
      else Except.error "BOOST direction must be LEFT or RIGHT"
  | _ => Except.error "BOOST must be written as BOOST LEFT|RIGHT"

/-- parseCommand (parser.ts lines 252-272). -/
def parseCommand (tokens : List String) : Except String RuleCommand :=
  match tokens with
  | [] => Except.error "command is missing"
  | t :: _ =>
      let command := t.toUpper
      if command = "SET" then parseSetControl tokens
      else if command = "FIRE" ∨ command = "SHOOT" then parseFire tokens
      else if command = "BOOST" then parseBoost tokens
      else Except.error "unsupported command"

/-! #### Expression tokenizer and recursive-descent expression parsing
(parser.ts lines 274-568).  The scanners and the descent are written with an
explicit fuel argument; every recursive call strictly consumes input or
nesting, the fuel passed at each entry point exceeds what the input can
consume, so the out-of-fuel error branches are unreachable. -/

inductive ExpressionTokenType where
  | NUMBER
  | IDENTIFIER
  | SYMBOL
  | EOF
deriving DecidableEq, Repr

structure ExpressionToken where
  type : ExpressionTokenType
  value : String
deriving DecidableEq, Repr

def isIdentStart (c : Char) : Bool := c.isAlpha || c = '_'

def isIdentCont (c : Char) : Bool := c.isAlpha || c.isDigit || c = '_'

/-- the number prefix `(?:\d+(?:\.\d*)?|\.\d+)(?:[eE][+-]?\d+)?`
(parser.ts line 295); `none` when the input does not start a number. -/
def takeNumberToken (cs : List Char) : Option (List Char × List Char) :=
  let (intD, r1) := cs.span Char.isDigit
  let (mantissa, rest) : List Char × List Char :=
    if intD.isEmpty then
      match r1 with
      | '.' :: r2 =>
          let (fd, r3) := r2.span Char.isDigit
          if fd.isEmpty then ([], cs) else ('.' :: fd, r3)
      | _ => ([], cs)
    else
      match r1 with
      | '.' :: r2 =>
          let (fd, r3) := r2.span Char.isDigit
          (intD ++ '.' :: fd, r3)
      | _ => (intD, r1)
  if mantissa.isEmpty then none
  else
    match rest with
    | e :: r2 =>
        if e = 'e' ∨ e = 'E' then
          let (sgn, r3) : List Char × List Char :=
            match r2 with
            | '+' :: rr => (['+'], rr)
            | '-' :: rr => (['-'], rr)
            | rr => ([], rr)
          let (ed, r4) := r3.span Char.isDigit
          if ed.isEmpty then some (mantissa, rest)
          else some (mantissa ++ e :: (sgn ++ ed), r4)
        else some (mantissa, rest)
    | [] => some (mantissa, [])

/-- tokenizeExpression (parser.ts lines 282-337). -/
def tokenizeExpressionAux : ℕ → List Char → Except String (List ExpressionToken)
  | 0, _ => Except.error "expression too long"
  | fuel + 1, cs =>
      match cs with
      | [] => Except.ok [{ type := ExpressionTokenType.EOF, value := "" }]
      | c :: rest =>
          if c.isWhitespace then tokenizeExpressionAux fuel rest
          else
            match takeNumberToken cs with
            | some (tok, r) =>
                (tokenizeExpressionAux fuel r).map
                  ({ type := ExpressionTokenType.NUMBER, value := String.mk tok } :: ·)
            | none =>
                if isIdentStart c then
                  let (idChars, r) := cs.span isIdentCont
                  (tokenizeExpressionAux fuel r).map
                    ({ type := ExpressionTokenType.IDENTIFIER
                       value := String.mk idChars } :: ·)
                else if c = '(' ∨ c = ')' ∨ c = '+' ∨ c = '-' ∨ c = '*' ∨
                    c = '/' ∨ c = ',' then
                  (tokenizeExpressionAux fuel rest).map
                    ({ type := ExpressionTokenType.SYMBOL, value := String.mk [c] } :: ·)
                else Except.error "invalid character in expression"

/-- SENSOR_VARIABLES (parser.ts lines 142-178) as a name table. -/
def SENSOR_VARIABLE_NAMES : List (String × SensorVariable) :=
  [("ARENA_SIZE", .ARENA_SIZE), ("SHOT_RANGE", .SHOT_RANGE_S),
   ("SHOT_HIT_RADIUS", .SHOT_HIT_RADIUS_S), ("SELF_X", .SELF_X),
   ("SELF_Y", .SELF_Y), ("SELF_HEADING", .SELF_HEADING),
   ("SELF_ENERGY", .SELF_ENERGY), ("BOOST_COOLDOWN", .BOOST_COOLDOWN),
   ("TICKS_SINCE_ENEMY_SEEN", .TICKS_SINCE_ENEMY_SEEN), ("ENEMY_X", .ENEMY_X),
   ("ENEMY_Y", .ENEMY_Y), ("ENEMY_HEADING", .ENEMY_HEADING),
   ("ENEMY_DX", .ENEMY_DX), ("ENEMY_DY", .ENEMY_DY),
   ("ENEMY_DISTANCE", .ENEMY_DISTANCE),
   ("ENEMY_FORWARD_DISTANCE", .ENEMY_FORWARD_DISTANCE),
   ("ENEMY_LATERAL_OFFSET", .ENEMY_LATERAL_OFFSET),
   ("PREV_ENEMY_X", .PREV_ENEMY_X), ("PREV_ENEMY_Y", .PREV_ENEMY_Y),
   ("PREV_ENEMY_HEADING", .PREV_ENEMY_HEADING),
   ("PREV_ENEMY_DX", .PREV_ENEMY_DX), ("PREV_ENEMY_DY", .PREV_ENEMY_DY),
   ("PREV_ENEMY_DISTANCE", .PREV_ENEMY_DISTANCE),
   ("ENEMY_DX_DELTA", .ENEMY_DX_DELTA), ("ENEMY_DY_DELTA", .ENEMY_DY_DELTA),
   ("ENEMY_DISTANCE_DELTA", .ENEMY_DISTANCE_DELTA),
   ("WALL_AHEAD_DISTANCE", .WALL_AHEAD_DISTANCE),
   ("WALL_LEFT_DISTANCE", .WALL_LEFT_DISTANCE),
   ("WALL_RIGHT_DISTANCE", .WALL_RIGHT_DISTANCE),
   ("WALL_BACK_DISTANCE", .WALL_BACK_DISTANCE),
   ("WALL_NEAREST_DISTANCE", .WALL_NEAREST_DISTANCE)]

def sensorFromString (s : String) : Option SensorVariable :=
  (SENSOR_VARIABLE_NAMES.find? (fun p => p.1 = s)).map Prod.snd

/-- EXPRESSION_FUNCTIONS with arities (parser.ts lines 64-72). -/
def functionFromString : String → Option (ExpressionFunctionName × ℕ)
  | "ABS" => some (.ABS, 1)
  | "MIN" => some (.MIN, 2)
  | "MAX" => some (.MAX, 2)
  | "CLAMP" => some (.CLAMP, 3)
  | "ATAN2" => some (.ATAN2, 2)
  | "ANGLE_DIFF" => some (.ANGLE_DIFF, 2)
  | "NORMALIZE_ANGLE" => some (.NORMALIZE_ANGLE, 1)
  | _ => none

/-- MATH_PI is the exact rational value of the IEEE-754 double `Math.PI`. -/
def MATH_PI : ℚ := 884279719003555 / 281474976710656

mutual

/-- parseAdditive (parser.ts lines 394-420). -/
def parseAdditive : ℕ → List ExpressionToken →
    Except String (NumericExpression × List ExpressionToken)
  | 0, _ => Except.error "expression too deeply nested"
  | fuel + 1, tokens =>
      match parseMultiplicative fuel tokens with
      | Except.error e => Except.error e
      | Except.ok (left, rest) => parseAdditiveLoop fuel left rest

def parseAdditiveLoop : ℕ → NumericExpression → List ExpressionToken →
    Except String (NumericExpression × List ExpressionToken)
  | 0, _, _ => Except.error "expression too deeply nested"
  | fuel + 1, left, tokens =>
      match tokens with
      | { type := ExpressionTokenType.SYMBOL, value := "+" } :: rest =>
          (match parseMultiplicative fuel rest with
           | Except.error e => Except.error e
           | Except.ok (right, rest2) =>
               parseAdditiveLoop fuel
                 (NumericExpression.binary ExpressionBinaryOperator.add left right) rest2)
      | { type := ExpressionTokenType.SYMBOL, value := "-" } :: rest =>
          (match parseMultiplicative fuel rest with
           | Except.error e => Except.error e
           | Except.ok (right, rest2) =>
               parseAdditiveLoop fuel
                 (NumericExpression.binary ExpressionBinaryOperator.sub left right) rest2)
      | _ => Except.ok (left, tokens)

/-- parseMultiplicative (parser.ts lines 422-448). -/
def parseMultiplicative : ℕ → List ExpressionToken →
    Except String (NumericExpression × List ExpressionToken)
  | 0, _ => Except.error "expression too deeply nested"
  | fuel + 1, tokens =>
      match parseUnaryE fuel tokens with
      | Except.error e => Except.error e
      | Except.ok (left, rest) => parseMultiplicativeLoop fuel left rest

def parseMultiplicativeLoop : ℕ → NumericExpression → List ExpressionToken →
    Except String (NumericExpression × List ExpressionToken)
  | 0, _, _ => Except.error "expression too deeply nested"
  | fuel + 1, left, tokens =>
      match tokens with
      | { type := ExpressionTokenType.SYMBOL, value := "*" } :: rest =>
          (match parseUnaryE fuel rest with
           | Except.error e => Except.error e
           | Except.ok (right, rest2) =>
               parseMultiplicativeLoop fuel
                 (NumericExpression.binary ExpressionBinaryOperator.mul left right) rest2)
      | { type := ExpressionTokenType.SYMBOL, value := "/" } :: rest =>
          (match parseUnaryE fuel rest with
           | Except.error e => Except.error e
           | Except.ok (right, rest2) =>
               parseMultiplicativeLoop fuel
                 (NumericExpression.binary ExpressionBinaryOperator.div left right) rest2)
      | _ => Except.ok (left, tokens)

/-- parseUnary (parser.ts lines 450-468). -/
def parseUnaryE : ℕ → List ExpressionToken →
    Except String (NumericExpression × List ExpressionToken)
  | 0, _ => Except.error "expression too deeply nested"
  | fuel + 1, tokens =>
      match tokens with
      | { type := ExpressionTokenType.SYMBOL, value := "+" } :: rest =>
          (match parseUnaryE fuel rest with
           | Except.error e => Except.error e
           | Except.ok (e, r) =>
               Except.ok (NumericExpression.unary ExpressionUnaryOperator.plus e, r))
      | { type := ExpressionTokenType.SYMBOL, value := "-" } :: rest =>
          (match parseUnaryE fuel rest with
           | Except.error e => Except.error e
           | Except.ok (e, r) =>
               Except.ok (NumericExpression.unary ExpressionUnaryOperator.neg e, r))
      | _ => parsePrimary fuel tokens

/-- parsePrimary (parser.ts lines 505-557). -/
def parsePrimary : ℕ → List ExpressionToken →
    Except String (NumericExpression × List ExpressionToken)
  | 0, _ => Except.error "expression too deeply nested"
  | fuel + 1, tokens =>
      match tokens with
      | { type := ExpressionTokenType.NUMBER, value := v } :: rest =>
          (match jsParseFloat v with
           | none => Except.error "expression number must be a finite number"
           | some q => Except.ok (NumericExpression.numberLit q, rest))
      | { type := ExpressionTokenType.IDENTIFIER, value := v } :: rest =>
          let normalized := v.toUpper
          (match rest with
           | { type := ExpressionTokenType.SYMBOL, value := "(" } :: rest2 =>
               parseFunctionCall fuel normalized rest2
           | _ =>
               match sensorFromString normalized with
               | some sv => Except.ok (NumericExpression.sensor sv, rest)
               | none =>
                   if normalized = "PI" then
                     Except.ok (NumericExpression.numberLit MATH_PI, rest)
                   else if normalized = "TAU" then
                     Except.ok (NumericExpression.numberLit (MATH_PI * 2), rest)
                   else Except.error "unknown identifier")
      | { type := ExpressionTokenType.SYMBOL, value := "(" } :: rest =>
          (match parseAdditive fuel rest with
           | Except.error e => Except.error e
           | Except.ok (nested, rest2) =>
               match rest2 with
               | { type := ExpressionTokenType.SYMBOL, value := ")" } :: rest3 =>
                   Except.ok (nested, rest3)
               | _ => Except.error "missing close paren in expression")
      | _ => Except.error "invalid expression"

/-- parseFunctionCall (parser.ts lines 470-503): unknown-name check, comma
separated arguments, closing paren, then the exact-arity check. -/
def parseFunctionCall : ℕ → String → List ExpressionToken →
    Except String (NumericExpression × List ExpressionToken)
  | 0, _, _ => Except.error "expression too deeply nested"
  | fuel + 1, name, tokens =>
      match functionFromString name with
      | none => Except.error "unknown function"
      | some (fn, arity) =>
          let argsResult :=
            match tokens with
            | { type := ExpressionTokenType.SYMBOL, value := ")" } :: _ =>
                Except.ok (([] : List NumericExpression), tokens)
            | _ => parseArgsLoop fuel tokens
          match argsResult with
          | Except.error e => Except.error e
          | Except.ok (args, rest) =>
              match rest with
              | { type := ExpressionTokenType.SYMBOL, value := ")" } :: rest2 =>
                  if args.length = arity then
                    Except.ok (NumericExpression.func fn args, rest2)
                  else Except.error "wrong number of arguments"
              | _ => Except.error "missing close paren in expression"

def parseArgsLoop : ℕ → List ExpressionToken →
    Except String (List NumericExpression × List ExpressionToken)
  | 0, _ => Except.error "expression too deeply nested"
  | fuel + 1, tokens =>
      match parseAdditive fuel tokens with
      | Except.error e => Except.error e
      | Except.ok (a, rest) =>
          match rest with
          | { type := ExpressionTokenType.SYMBOL, value := "," } :: rest2 =>
              (match parseArgsLoop fuel rest2 with
               | Except.error e => Except.error e
               | Except.ok (more, rest3) => Except.ok (a :: more, rest3))
          | _ => Except.ok ([a], rest)

end

/-- parseNumericExpression (parser.ts lines 560-568). -/
def parseNumericExpression (expressionText : String) :
    Except String NumericExpression :=
  let trimmed := expressionText.trim
  if trimmed = "" then Except.error "expression is empty"
  else
    match tokenizeExpressionAux (trimmed.length + 1) trimmed.toList with
    | Except.error e => Except.error e
    | Except.ok tokens =>
        match parseAdditive ((tokens.length + 1) * 8) tokens with
        | Except.error e => Except.error e
        | Except.ok (expr, rest) =>
            match rest with
            | [{ type := ExpressionTokenType.EOF, value := _ }] => Except.ok expr
            | _ => Except.error "expression parse error"

/-! #### Condition parsing (parser.ts lines 570-826) -/

/-- the comparison operators in the source's candidate order
`[">=", "<=", "==", "!=", ">", "<", "="]` (parser.ts line 574);
returns the operator (with `=` aliased to `==`) and its source length. -/
def matchComparisonAt : List Char → Option (ComparisonOperator × ℕ)
  | '>' :: '=' :: _ => some (ComparisonOperator.ge, 2)
  | '<' :: '=' :: _ => some (ComparisonOperator.le, 2)
  | '=' :: '=' :: _ => some (ComparisonOperator.eq, 2)
  | '!' :: '=' :: _ => some (ComparisonOperator.ne, 2)
  | '>' :: _ => some (ComparisonOperator.gt, 1)
  | '<' :: _ => some (ComparisonOperator.lt, 1)
  | '=' :: _ => some (ComparisonOperator.eq, 1)
  | _ => none

def splitCompAux : ℕ → List Char → ℤ → List Char →
    Option (String × ComparisonOperator) →
    Except String (String × ComparisonOperator × String)
  | 0, _, _, _, _ => Except.error "condition too long"
  | fuel + 1, cs, depth, acc, found =>
      match cs with
      | [] =>
          if depth ≠ 0 then Except.error "IF condition has mismatched parentheses"
          else
            (match found with
             | none => Except.error "invalid IF condition"
             | some (left, op) => Except.ok (left, op, String.mk acc.reverse))
      | c :: rest =>
          if c = '(' then splitCompAux fuel rest (depth + 1) (c :: acc) found
          else if c = ')' then
            if depth - 1 < 0 then
              Except.error "IF condition has mismatched parentheses"
            else splitCompAux fuel rest (depth - 1) (c :: acc) found
          else if depth ≠ 0 then splitCompAux fuel rest depth (c :: acc) found
          else
            match matchComparisonAt cs with
            | none => splitCompAux fuel rest depth (c :: acc) found
            | some (op, len) =>
                match found with
                | some _ =>
                    Except.error "IF condition supports only one top-level comparator"
                | none =>
                    splitCompAux fuel (cs.drop len) depth []
                      (some (String.mk acc.reverse, op))

/-- splitConditionComparison (parser.ts lines 570-643): depth-zero
comparator split with uniqueness and non-empty sides. -/
def splitConditionComparison (conditionText : String) :
    Except String (String × ComparisonOperator × String) :=
  match splitCompAux (conditionText.length + 1) conditionText.toList 0 [] none with
  | Except.error e => Except.error e
  | Except.ok (left, op, right) =>
      let l := left.trim
      let r := right.trim
      if l = "" ∨ r = "" then
        Except.error "comparator requires both left and right expressions"
      else Except.ok (l, op, r)

/-- isIdentifierCharacter (parser.ts lines 645-651), applied through
`toUpper` since the source tests the uppercased text. -/
def isIdentifierCharacterU (c : Char) : Bool :=
  let u := c.toUpper
  ('A' ≤ u && u ≤ 'Z') || u.isDigit || u = '_'

/-- case-insensitive starts-with for a keyword. -/
def keywordAt : List Char → List Char → Bool
  | [], _ => true
  | k :: ks, c :: rest => c.toUpper = k && keywordAt ks rest
  | _ :: _, [] => false

def splitKwAux (kw : List Char) : ℕ → List Char → ℤ → Option Char →
    List Char → List String → Bool → Except String (Option (List String))
  | 0, _, _, _, _, _, _ => Except.error "condition too long"
  | fuel + 1, cs, depth, prev, acc, parts, matched =>
      match cs with
      | [] =>
          if depth ≠ 0 then Except.error "IF condition has mismatched parentheses"
          else if !matched then Except.ok none
          else
            let tail := (String.mk acc.reverse).trim
            if tail = "" then Except.error "condition operand is missing"
            else Except.ok (some (parts ++ [tail]))
      | c :: rest =>
          if c = '(' then
            splitKwAux kw fuel rest (depth + 1) (some c) (c :: acc) parts matched
          else if c = ')' then
            if depth - 1 < 0 then
              Except.error "IF condition has mismatched parentheses"
            else splitKwAux kw fuel rest (depth - 1) (some c) (c :: acc) parts matched
          else if depth ≠ 0 then
            splitKwAux kw fuel rest depth (some c) (c :: acc) parts matched
          else if keywordAt kw cs &&
              (match prev with
               | none => true
               | some p => !isIdentifierCharacterU p) &&
              (match cs.drop kw.length with
               | [] => true
               | c2 :: _ => !isIdentifierCharacterU c2) then
            let segment := (String.mk acc.reverse).trim
            if segment = "" then Except.error "condition operand is missing"
            else
              splitKwAux kw fuel (cs.drop kw.length) depth
                (some (kw.getLastD ' ')) [] (parts ++ [segment]) true
          else splitKwAux kw fuel rest depth (some c) (c :: acc) parts matched

/-- splitTopLevelByKeyword (parser.ts lines 667-726): split at top-level
AND/OR keyword occurrences with word boundaries; `none` when the keyword
does not occur at depth zero. -/
def splitTopLevelByKeyword (conditionText : String) (kw : String) :
    Except String (Option (List String)) :=
  let source := conditionText.trim
  splitKwAux kw.toList (source.length + 1) source.toList 0 none [] [] false

def wrappedAux : List Char → ℤ → Bool
  | [], depth => depth = 0
  | c :: rest, depth =>
      if c = '(' then wrappedAux rest (depth + 1)
      else if c = ')' then
        if depth - 1 = 0 && !rest.isEmpty then false
        else wrappedAux rest (depth - 1)
      else wrappedAux rest depth

/-- isWrappedByOuterParentheses (parser.ts lines 728-748). -/
def isWrappedByOuterParens (s : String) : Bool :=
  let cs := s.trim.toList
  match cs with
  | '(' :: _ =>
      (match cs.getLast? with
       | some ')' => wrappedAux cs 0
       | _ => false)
  | _ => false

def stripOuterParensAux : ℕ → String → String
  | 0, value => value
  | fuel + 1, value =>
      if isWrappedByOuterParens value then
        stripOuterParensAux fuel
          ((String.mk (value.trim.toList.drop 1).dropLast).trim)
      else value

/-- stripOuterParentheses (parser.ts lines 750-757). -/
def stripOuterParentheses (s : String) : String :=
  stripOuterParensAux (s.length + 1) s.trim

mutual

/-- parseConditionNode (parser.ts lines 759-818): OR split, then AND split,
then NOT, then ENEMY_VISIBLE, then a comparison. -/
def parseConditionNode : ℕ → String → Except String RuleCondition
  | 0, _ => Except.error "condition too deeply nested"
  | fuel + 1, conditionText =>
      let stripped := stripOuterParentheses conditionText
      if stripped = "" then Except.error "IF condition is missing"
      else
        match splitTopLevelByKeyword stripped "OR" with
        | Except.error e => Except.error e
        | Except.ok (some parts) => parseLogicalChain fuel LogicalOperator.OR parts
        | Except.ok none =>
            match splitTopLevelByKeyword stripped "AND" with
            | Except.error e => Except.error e
            | Except.ok (some parts) => parseLogicalChain fuel LogicalOperator.AND parts
            | Except.ok none =>
                let cs := stripped.toList
                if keywordAt ['N', 'O', 'T'] cs &&
                    (match cs.drop 3 with
                     | [] => true
                     | c :: _ => !isIdentifierCharacterU c) then
                  let operandText := (stripped.drop 3).trim
                  if operandText = "" then
                    Except.error "NOT condition operand is missing"
                  else
                    (match parseConditionNode fuel operandText with
                     | Except.error e => Except.error e
                     | Except.ok op => Except.ok (RuleCondition.notCond op))
                else if stripped.toUpper = "ENEMY_VISIBLE" then
                  Except.ok (RuleCondition.visibility true)
                else
                  match splitConditionComparison stripped with
                  | Except.error e => Except.error e
                  | Except.ok (l, op, r) =>
                      match parseNumericExpression l with
                      | Except.error e => Except.error e
                      | Except.ok left =>
                          match parseNumericExpression r with
                          | Except.error e => Except.error e
                          | Except.ok right =>
                              Except.ok (RuleCondition.compare left op right)

def parseLogicalChain : ℕ → LogicalOperator → List String →
    Except String RuleCondition
  | 0, _, _ => Except.error "condition too deeply nested"
  | fuel + 1, op, parts =>
      match parts with
      | [] => Except.error "condition operand is missing"
      | p :: ps =>
          match parseConditionNode fuel p with
          | Except.error e => Except.error e
          | Except.ok first => parseLogicalFold fuel op first ps

def parseLogicalFold : ℕ → LogicalOperator → RuleCondition → List String →
    Except String RuleCondition
  | 0, _, _, _ => Except.error "condition too deeply nested"
  | fuel + 1, op, leftC, parts =>
      match parts with
      | [] => Except.ok leftC
      | p :: ps =>
          match parseConditionNode fuel p with
          | Except.error e => Except.error e
          | Except.ok rc =>
              parseLogicalFold fuel op (RuleCondition.logical op leftC rc) ps

end

/-- parseCondition (parser.ts lines 820-826). -/
def parseCondition (conditionText : String) : Except String RuleCondition :=
  if conditionText.trim = "" then Except.error "IF condition is missing"
  else parseConditionNode ((conditionText.length + 1) * 4) conditionText

/-! #### Line and script parsing (parser.ts lines 828-897) -/

/-- word characters of the JavaScript `\b` boundary: `[A-Za-z0-9_]`. -/
def isWordChar (c : Char) : Bool := c.isAlpha || c.isDigit || c = '_'

/-- the `/^IF\b/i` test (parser.ts line 834). -/
def hasIfPrefix : List Char → Bool
  | c1 :: c2 :: rest =>
      c1.toUpper = 'I' && c2.toUpper = 'F' &&
        (match rest with
         | [] => true
         | c :: _ => !isWordChar c)
  | _ => false

/-- the `/\bTHEN\b/i` search (parser.ts line 837): index of the first
case-insensitive `THEN` with word boundaries on both sides. -/
def findThenAux : List Char → Option Char → ℕ → Option ℕ
  | [], _, _ => none
  | c :: rest, prev, i =>
      if keywordAt ['T', 'H', 'E', 'N'] (c :: rest) &&
          (match prev with
           | none => true
           | some p => !isWordChar p) &&
          (match (c :: rest).drop 4 with
           | [] => true
           | c2 :: _ => !isWordChar c2) then some i
      else findThenAux rest (some c) (i + 1)

/-- parseSingleLine (parser.ts lines 828-872): `none` for blank lines and
`#` comments. -/
def parseSingleLine (rawLine : String) (lineNumber : ℕ) :
    Except String (Option ScriptAction) :=
  let trimmed := rawLine.trim
  if trimmed = "" ∨ trimmed.startsWith "#" then Except.ok none
  else if hasIfPrefix trimmed.toList then
    let afterIf := (trimmed.drop 2).trim
    match findThenAux afterIf.toList none 0 with
    | none => Except.error "IF statement must include THEN"
    | some idx =>
        let conditionText := (afterIf.take idx).trim
        let commandText := (afterIf.drop (idx + 4)).trim
        if conditionText = "" then Except.error "IF condition is missing"
        else
          let commandTokens := splitWs commandText
          if commandTokens.isEmpty then Except.error "IF THEN command is missing"
          else
            match parseCondition conditionText with
            | Except.error e => Except.error e
            | Except.ok condition =>
                match parseCommand commandTokens with
                | Except.error e => Except.error e
                | Except.ok command =>
                    Except.ok (some
                      { line := lineNumber, condition := some condition
                        command := command })
  else
    match parseCommand (splitWs trimmed) with
    | Except.error e => Except.error e
    | Except.ok command =>
        Except.ok (some { line := lineNumber, condition := none, command := command })

/-- the indexed forEach of parseRobotScript (parser.ts lines 885-890);
the first line error aborts the whole parse, as the thrown exception does. -/
def collectRules : List String → ℕ → Except String (List ScriptAction)
  | [], _ => Except.ok []
  | l :: ls, i =>
      match parseSingleLine l i with
      | Except.error e => Except.error e
      | Except.ok parsed =>
          match collectRules ls (i + 1) with
          | Except.error e => Except.error e
          | Except.ok rest =>
              Except.ok
                (match parsed with
                 | none => rest
                 | some r => r :: rest)

/-- parseRobotScript (parser.ts lines 874-897). -/
def parseRobotScript (scriptText : String) : Except String (List ScriptAction) :=
  if scriptText.trim = "" then Except.error "script is empty"
  else
    let lines := splitLines scriptText
    if lines.length > MAX_SCRIPT_LINES then
      Except.error "script is too long; maximum 200 lines"
    else
      match collectRules lines 1 with
      | Except.error e => Except.error e
      | Except.ok rules =>
          if rules.isEmpty then Except.error "script has no executable commands"
          else Except.ok rules

theorem round4_idem (q : ℚ) : round4 (round4 q) = round4 q :=
  round4_eq_of_grid ((Grid4_iff (round4 q)).mpr ⟨round (q * 10000), rfl⟩)

theorem collectRules_blank :
    ∀ (ls : List String) (i : ℕ),
      (∀ l ∈ ls, l.trim = "" ∨ (l.trim).startsWith "#" = true) →
      collectRules ls i = Except.ok [] := by
  intro ls
  induction ls with
  | nil => intro i _; rfl
  | cons l ls ih =>
    intro i h
    rw [collectRules]
    have hline : parseSingleLine l i = Except.ok none := by
      unfold parseSingleLine
      rw [if_pos (h l (List.mem_cons_self l ls))]
    rw [hline, ih (i + 1) (fun l2 hl2 => h l2 (List.mem_cons_of_mem l hl2))]

/-- C9: parse_program fails (no partial program) on empty or whitespace-only
input, on more than 200 lines, on scripts with no executable rule after
stripping blanks and `#` comments, and on a malformed (unknown) command
token; a SET value parsing to a number outside [-1, 1] is rejected, and a
successfully parsed SET value is normalized to 4 decimal places. -/
theorem C9_parse_failures :
    (∀ s : String, s.trim = "" →
        parseRobotScript s = Except.error "script is empty") ∧
    (∀ s : String, ¬s.trim = "" → (splitLines s).length > MAX_SCRIPT_LINES →
        parseRobotScript s = Except.error "script is too long; maximum 200 lines") ∧
    (∀ s : String, ¬s.trim = "" → ¬((splitLines s).length > MAX_SCRIPT_LINES) →
        (∀ l ∈ splitLines s, l.trim = "" ∨ (l.trim).startsWith "#" = true) →
        parseRobotScript s = Except.error "script has no executable commands") ∧
    (∀ (t : String) (ts : List String),
        ¬t.toUpper = "SET" → ¬t.toUpper = "FIRE" → ¬t.toUpper = "SHOOT" →
        ¬t.toUpper = "BOOST" →
        parseCommand (t :: ts) = Except.error "unsupported command") ∧
    (∀ (tok : String) (v : ℚ), jsParseFloat tok = some v → (v < -1 ∨ 1 < v) →
        parseControlValue tok = Except.error "value must be between -1 and 1") ∧
    (∀ (tok : String) (v : ℚ), parseControlValue tok = Except.ok v →
        v = round4 v) := by
  refine ⟨?_, ?_, ?_, ?_, ?_, ?_⟩
  · intro s h
    unfold parseRobotScript
    rw [if_pos h]
  · intro s h1 h2
    unfold parseRobotScript
    rw [if_neg h1, if_pos h2]
  · intro s h1 h2 h3
    unfold parseRobotScript
    rw [if_neg h1, if_neg h2, collectRules_blank (splitLines s) 1 h3]
    rfl
  · intro t ts h1 h2 h3 h4
    unfold parseCommand
    dsimp only
    rw [if_neg h1, if_neg (show ¬(t.toUpper = "FIRE" ∨ t.toUpper = "SHOOT") by
      rintro (h | h)
      · exact h2 h
      · exact h3 h), if_neg h4]
  · intro tok v hparse hrange
    unfold parseControlValue parseNormalizedNumber
    rw [hparse]
    dsimp only
    rw [if_pos hrange]
  · intro tok v h
    unfold parseControlValue parseNormalizedNumber at h
    rcases hp : jsParseFloat tok with _ | value
    · rw [hp] at h
      cases h
    · rw [hp] at h
      dsimp only at h
      by_cases hrange : value < -1 ∨ 1 < value
      · rw [if_pos hrange] at h
        cases h
      · rw [if_neg hrange] at h
        have hv : round4 value = v := Except.ok.inj h
        rw [← hv, round4_idem]

theorem C9_parse_failures_witness :
    parseControlValue "2" = Except.error "value must be between -1 and 1" :=
  C9_parse_failures.2.2.2.2.1 "2" 2
    (by
      unfold jsParseFloat
      rw [show ("2" : String).toList = ['2'] from by decide]
      dsimp only
      rw [show (match ['2'] with
          | '+' :: r => ((1 : ℚ), r)
          | '-' :: r => (-1, r)
          | r => (1, r)) = (1, ['2']) from rfl]
      rw [show (['2'].span Char.isDigit) = (['2'], []) from by decide]
      dsimp only
      norm_num [digitsToNat,
        show ('2'.toNat - '0'.toNat) = 2 from by decide])
    (Or.inr (by norm_num))

end McpArena
